import Mathlib

/-!
# XR_APILAYER_NOVENDOR_fov_modifier: shallow embedding of `dllmain.cpp`

The layer intercepts `xrLocateViews` and scales the field-of-view angles of the
two stereo views by per-application factors.

Conventions of the embedding.

* `float` values are elements of an arbitrary type `F` carrying the
  multiplication the source uses (`*=`); nothing is assumed about it.
* The file-scope globals of the source (`dllHome`, `nextXrGetInstanceProcAddr`,
  `nextXrLocateViews`, `config`) are the fields of `LayerState`, passed
  explicitly and returned by the functions that assign them.
* A function pointer is a value of `FnPtr`.  The behaviour of the function a
  delegate pointer designates is passed to the caller as an explicit argument.
* Memory the callee writes through a pointer argument is returned next to the
  status.  An access `views[i]` outside the caller's array is a `Fault`.
* Constants, enumerators and `sizeof` values that come from the OpenXR headers
  (`pch.h`) are the fields of `OpenXRHeader` and are taken as a parameter.
* The creation delegate acts on the state of everything below the layer, a
  value of an arbitrary type `W` that is passed in and returned.
* The file system is a parameter: it answers whether the stream of line 111
  opens and which lines `std::getline` extracts.  `std::stof` is a parameter
  of the functions that call it; its definition after the C++ standard is
  `stof`, with the rounding to `float` left as a parameter.
* Logging (`Log`, `DebugLog`, `logStream`) has no influence on any value
  modelled here and is left out.
-/

namespace FovModifier

/-! ## Header constants -/

/-- Constants of the OpenXR headers used by `dllmain.cpp`.  The headers are not
part of the source tree, so their values are a parameter of every definition
that mentions them. -/
structure OpenXRHeader where
  XR_SUCCESS : Int
  XR_ERROR_INITIALIZATION_FAILED : Int
  XR_VIEW_CONFIGURATION_TYPE_PRIMARY_STEREO : Int
  XR_LOADER_INTERFACE_STRUCT_LOADER_INFO : Int
  XR_LOADER_INTERFACE_STRUCT_API_LAYER_REQUEST : Int
  XR_LOADER_INFO_STRUCT_VERSION : Nat
  XR_API_LAYER_INFO_STRUCT_VERSION : Nat
  XR_CURRENT_LOADER_API_LAYER_VERSION : Nat
  XR_CURRENT_API_VERSION : Nat
  sizeofXrNegotiateLoaderInfo : Nat
  sizeofXrNegotiateApiLayerRequest : Nat
  XR_LOADER_INTERFACE_STRUCT_API_LAYER_CREATE_INFO : Int
  XR_LOADER_INTERFACE_STRUCT_API_LAYER_NEXT_INFO : Int
  XR_API_LAYER_CREATE_INFO_STRUCT_VERSION : Nat
  XR_API_LAYER_NEXT_INFO_STRUCT_VERSION : Nat
  sizeofXrApiLayerCreateInfo : Nat
  sizeofXrApiLayerNextInfo : Nat

/-- Status code of an OpenXR call (`XrResult`, a C enumeration). -/
abbrev XrResult := Int

/-- Opaque session handle. -/
abbrev XrSession := Nat

/-- Opaque instance handle. -/
abbrev XrInstance := Nat

/-! ## Function pointers -/

/-- Value of a function pointer: null, the address of one of the three
functions this layer defines, or the address of a function defined elsewhere
(the next layer or the runtime). -/
inductive FnPtr where
  | null
  | addr_FOVModifier_xrLocateViews
  | addr_FOVModifier_xrGetInstanceProcAddr
  | addr_FOVModifier_xrCreateApiLayerInstance
  | foreign (addr : Nat)
  deriving DecidableEq, Repr

/-! ## Data model -/

/-- The anonymous struct `config` (lines 34-68): a loaded flag and eight scale
factors. -/
structure Config (F : Type) where
  loaded : Bool
  leftAngleUp : F
  leftAngleDown : F
  leftAngleLeft : F
  leftAngleRight : F
  rightAngleUp : F
  rightAngleDown : F
  rightAngleLeft : F
  rightAngleRight : F
  deriving DecidableEq, Repr

/-- The file-scope variables of `dllmain.cpp` (lines 23-30 and 68). -/
structure LayerState (F : Type) where
  dllHome : String
  nextXrGetInstanceProcAddr : FnPtr
  nextXrLocateViews : FnPtr
  config : Config F
  deriving DecidableEq, Repr

/-- Field-of-view angles of one view (`XrFovf`). -/
structure XrFovf (F : Type) where
  angleLeft : F
  angleRight : F
  angleUp : F
  angleDown : F
  deriving DecidableEq, Repr

/-- Orientation of a pose (`XrQuaternionf`). -/
structure XrQuaternionf (F : Type) where
  x : F
  y : F
  z : F
  w : F
  deriving DecidableEq, Repr

/-- Position of a pose (`XrVector3f`). -/
structure XrVector3f (F : Type) where
  x : F
  y : F
  z : F
  deriving DecidableEq, Repr

/-- Pose of one view (`XrPosef`). -/
structure XrPosef (F : Type) where
  orientation : XrQuaternionf F
  position : XrVector3f F
  deriving DecidableEq, Repr

/-- One entry of the caller's view array (`XrView`). -/
structure XrView (F : Type) where
  type : Int
  next : Nat
  pose : XrPosef F
  fov : XrFovf F
  deriving DecidableEq, Repr

/-- The view-locate query (`XrViewLocateInfo`). -/
structure XrViewLocateInfo where
  type : Int
  next : Nat
  viewConfigurationType : Int
  displayTime : Int
  space : Nat
  deriving DecidableEq, Repr

/-- The view-state output (`XrViewState`). -/
structure XrViewState where
  type : Int
  next : Nat
  viewStateFlags : Nat
  deriving DecidableEq, Repr

/-- Abnormal termination: `views[index]` was accessed although the array the
caller supplied holds only `capacity` entries. -/
inductive Fault where
  | outOfBounds (index : Nat) (capacity : Nat)
  deriving DecidableEq, Repr

/-- Everything a call of `xrLocateViews` leaves behind: the returned status and
the contents of the three output locations `*viewState`, `*viewCountOutput`
and `views[0 .. viewCapacityInput)`. -/
structure LocateViewsOut (F : Type) where
  result : XrResult
  viewState : XrViewState
  viewCountOutput : Nat
  views : List (XrView F)
  deriving DecidableEq, Repr

/-- Behaviour of a function of type `PFN_xrLocateViews`: from the session, the
query, the prior contents of `*viewState`, `viewCapacityInput`, the prior
contents of `*viewCountOutput` and of the view array, to status and outputs. -/
abbrev PFN_xrLocateViews (F : Type) :=
  XrSession → XrViewLocateInfo → XrViewState → Nat → Nat → List (XrView F) →
    LocateViewsOut F

/-- Behaviour of a function of type `PFN_xrGetInstanceProcAddr`: from the
instance, the name and the prior contents of `*function`, to the status and
the new contents of `*function`. -/
abbrev PFN_xrGetInstanceProcAddr := XrInstance → String → FnPtr → XrResult × FnPtr

/-- The loader-info structure of the negotiation (`XrNegotiateLoaderInfo`). -/
structure XrNegotiateLoaderInfo where
  structType : Int
  structVersion : Nat
  structSize : Nat
  minInterfaceVersion : Nat
  maxInterfaceVersion : Nat
  minApiVersion : Nat
  maxApiVersion : Nat
  deriving DecidableEq, Repr

/-- The layer-request structure of the negotiation
(`XrNegotiateApiLayerRequest`). -/
structure XrNegotiateApiLayerRequest where
  structType : Int
  structVersion : Nat
  structSize : Nat
  layerInterfaceVersion : Nat
  layerApiVersion : Nat
  getInstanceProcAddr : FnPtr
  createApiLayerInstance : FnPtr
  deriving DecidableEq, Repr

/-- The constant `LayerName` (line 20). -/
def LayerName : String := "XR_APILAYER_NOVENDOR_fov_modifier"

/-! ## `FOVModifier_xrLocateViews` (lines 182-213) -/

/-- One read-modify-write of `views[i]`: a fault when the array has no entry
`i`, otherwise the array with entry `i` replaced by `f views[i]`. -/
def modifyView {F : Type} (views : List (XrView F)) (i : Nat)
    (f : XrView F → XrView F) : Except Fault (List (XrView F)) :=
  match views[i]? with
  | some v => Except.ok (views.set i (f v))
  | none => Except.error (Fault.outOfBounds i views.length)

/-- The statement `views[i].fov.angleDown *= k`. -/
def mulAngleDown {F : Type} [Mul F] (views : List (XrView F)) (i : Nat) (k : F) :
    Except Fault (List (XrView F)) :=
  modifyView views i fun v => { v with fov := { v.fov with angleDown := v.fov.angleDown * k } }

/-- The statement `views[i].fov.angleUp *= k`. -/
def mulAngleUp {F : Type} [Mul F] (views : List (XrView F)) (i : Nat) (k : F) :
    Except Fault (List (XrView F)) :=
  modifyView views i fun v => { v with fov := { v.fov with angleUp := v.fov.angleUp * k } }

/-- The statement `views[i].fov.angleLeft *= k`. -/
def mulAngleLeft {F : Type} [Mul F] (views : List (XrView F)) (i : Nat) (k : F) :
    Except Fault (List (XrView F)) :=
  modifyView views i fun v => { v with fov := { v.fov with angleLeft := v.fov.angleLeft * k } }

/-- The statement `views[i].fov.angleRight *= k`. -/
def mulAngleRight {F : Type} [Mul F] (views : List (XrView F)) (i : Nat) (k : F) :
    Except Fault (List (XrView F)) :=
  modifyView views i fun v => { v with fov := { v.fov with angleRight := v.fov.angleRight * k } }

/-- The eight assignments of lines 199-206, in source order. -/
def applyFov {F : Type} [Mul F] (config : Config F) (views : List (XrView F)) :
    Except Fault (List (XrView F)) := do
  let views ← mulAngleDown views 0 config.leftAngleDown
  let views ← mulAngleUp views 0 config.leftAngleUp
  let views ← mulAngleLeft views 0 config.leftAngleLeft
  let views ← mulAngleRight views 0 config.leftAngleRight
  let views ← mulAngleDown views 1 config.rightAngleDown
  let views ← mulAngleUp views 1 config.rightAngleUp
  let views ← mulAngleLeft views 1 config.rightAngleLeft
  mulAngleRight views 1 config.rightAngleRight

/-- The wrapper `FOVModifier_xrLocateViews`.  `next` is the behaviour of the
function the global `nextXrLocateViews` points to; the globals are read from
`st` and none of them is assigned. -/
def FOVModifier_xrLocateViews {F : Type} [Mul F] (H : OpenXRHeader)
    (next : PFN_xrLocateViews F) (st : LayerState F)
    (session : XrSession) (viewLocateInfo : XrViewLocateInfo)
    (viewState : XrViewState) (viewCapacityInput : Nat) (viewCountOutput : Nat)
    (views : List (XrView F)) : Except Fault (LocateViewsOut F) :=
  let r := next session viewLocateInfo viewState viewCapacityInput viewCountOutput views
  if r.result = H.XR_SUCCESS then
    if viewLocateInfo.viewConfigurationType = H.XR_VIEW_CONFIGURATION_TYPE_PRIMARY_STEREO then
      match applyFov st.config r.views with
      | Except.ok views1 => Except.ok { r with views := views1 }
      | Except.error e => Except.error e
    else
      Except.ok r
  else
    Except.ok r

/-! ## `FOVModifier_xrGetInstanceProcAddr` (lines 216-241) -/

/-- The resolver `FOVModifier_xrGetInstanceProcAddr`.  `next` is the behaviour
of the function the global `nextXrGetInstanceProcAddr` points to.  Returns the
status, the contents of `*function` and the globals afterwards. -/
def FOVModifier_xrGetInstanceProcAddr {F : Type} (H : OpenXRHeader)
    (next : PFN_xrGetInstanceProcAddr) (st : LayerState F)
    (instance_ : XrInstance) (name : String) (function : FnPtr) :
    XrResult × FnPtr × LayerState F :=
  let r := next instance_ name function
  if st.config.loaded = true ∧ r.1 = H.XR_SUCCESS then
    if name = "xrLocateViews" then
      (r.1, FnPtr.addr_FOVModifier_xrLocateViews, { st with nextXrLocateViews := r.2 })
    else
      (r.1, r.2, st)
  else
    (r.1, r.2, st)

/-! ## `FOVModifier_xrNegotiateLoaderApiLayerInterface` (lines 292-361) -/

/-- Lines 300-314: when `dllHome` is empty it becomes the directory of the
module, `moduleDir`, if the platform could locate the module (`some`), and is
left empty otherwise. -/
def locateDllHome {F : Type} (moduleDir : Option String) (st : LayerState F) :
    LayerState F :=
  if st.dllHome = "" then
    match moduleDir with
    | some dir => { st with dllHome := dir }
    | none => st
  else
    st

/-- The negotiation entry point.  A null pointer argument is `none`.  Returns
the status, the contents of `*apiLayerRequest` and the globals afterwards. -/
def FOVModifier_xrNegotiateLoaderApiLayerInterface {F : Type} (H : OpenXRHeader)
    (moduleDir : Option String) (st : LayerState F)
    (loaderInfo : Option XrNegotiateLoaderInfo) (apiLayerName : Option String)
    (apiLayerRequest : Option XrNegotiateApiLayerRequest) :
    XrResult × Option XrNegotiateApiLayerRequest × LayerState F :=
  let st1 := locateDllHome moduleDir st
  if apiLayerName.isSome = true ∧ apiLayerName ≠ some LayerName then
    (H.XR_ERROR_INITIALIZATION_FAILED, apiLayerRequest, st1)
  else
    match loaderInfo, apiLayerRequest with
    | some li, some rq =>
      if li.structType ≠ H.XR_LOADER_INTERFACE_STRUCT_LOADER_INFO ∨
          li.structVersion ≠ H.XR_LOADER_INFO_STRUCT_VERSION ∨
          li.structSize ≠ H.sizeofXrNegotiateLoaderInfo ∨
          rq.structType ≠ H.XR_LOADER_INTERFACE_STRUCT_API_LAYER_REQUEST ∨
          rq.structVersion ≠ H.XR_API_LAYER_INFO_STRUCT_VERSION ∨
          rq.structSize ≠ H.sizeofXrNegotiateApiLayerRequest ∨
          li.minInterfaceVersion > H.XR_CURRENT_LOADER_API_LAYER_VERSION ∨
          li.maxInterfaceVersion < H.XR_CURRENT_LOADER_API_LAYER_VERSION ∨
          li.maxInterfaceVersion > H.XR_CURRENT_LOADER_API_LAYER_VERSION ∨
          li.maxApiVersion < H.XR_CURRENT_API_VERSION ∨
          li.minApiVersion > H.XR_CURRENT_API_VERSION then
        (H.XR_ERROR_INITIALIZATION_FAILED, apiLayerRequest, st1)
      else
        (H.XR_SUCCESS,
          some { rq with
            layerInterfaceVersion := H.XR_CURRENT_LOADER_API_LAYER_VERSION
            layerApiVersion := H.XR_CURRENT_API_VERSION
            getInstanceProcAddr := FnPtr.addr_FOVModifier_xrGetInstanceProcAddr
            createApiLayerInstance := FnPtr.addr_FOVModifier_xrCreateApiLayerInstance },
          st1)
    | _, _ => (H.XR_ERROR_INITIALIZATION_FAILED, apiLayerRequest, st1)

/-! ## `config.Reset` and `LoadConfiguration` (lines 56-67 and 104-179) -/

/-- The method `Reset` (lines 56-67): the flag cleared and every factor `1.0f`,
whatever the configuration held before. -/
def Config.Reset {F : Type} [One F] (_config : Config F) : Config F where
  loaded := false
  leftAngleUp := 1
  leftAngleDown := 1
  leftAngleLeft := 1
  leftAngleRight := 1
  rightAngleUp := 1
  rightAngleDown := 1
  rightAngleLeft := 1
  rightAngleRight := 1

/-- The file system as `LoadConfiguration` sees it.  `fs dir file` is `none`
when the stream constructed on line 111 from
`std::filesystem::path(dir) / std::filesystem::path(file)` is not open, and
otherwise the sequence of lines that successive `std::getline` calls extract
from it. -/
abbrev FileSystem := String → String → Option (List String)

/-- The call `line.find(c)` of `std::string`: the position of the first
occurrence of `c`, `none` for `npos`. -/
def find (line : String) (c : Char) : Option Nat :=
  if line.data.indexOf c < line.data.length then some (line.data.indexOf c) else none

/-- The call `line.substr(pos, count)` of `std::string`, for `pos` within the
string. -/
def substr (line : String) (pos count : Nat) : String :=
  String.mk ((line.data.drop pos).take count)

/-- The call `line.substr(pos)` of `std::string`, for `pos` within the string. -/
def substrFrom (line : String) (pos : Nat) : String :=
  String.mk (line.data.drop pos)

/-- The body of the loop of lines 118-168 for one line.  `stof` is
`std::stof`, with `none` for a thrown exception, which line 164 catches. -/
def parseLine {F : Type} (stof : String → Option F) (config : Config F) (line : String) :
    Config F :=
  match find line '=' with
  | some offset =>
    let name := substr line 0 offset
    match stof (substrFrom line (offset + 1)) with
    | some value =>
      if name = "left.up" then { config with leftAngleUp := value }
      else if name = "left.down" then { config with leftAngleDown := value }
      else if name = "left.left" then { config with leftAngleLeft := value }
      else if name = "left.right" then { config with leftAngleRight := value }
      else if name = "right.up" then { config with rightAngleUp := value }
      else if name = "right.down" then { config with rightAngleDown := value }
      else if name = "right.left" then { config with rightAngleLeft := value }
      else if name = "right.right" then { config with rightAngleRight := value }
      else config
    | none => config
  | none => config

/-- The function `LoadConfiguration`: the returned flag and the globals
afterwards. -/
def LoadConfiguration {F : Type} (stof : String → Option F) (fs : FileSystem)
    (st : LayerState F) (configName : String) : Bool × LayerState F :=
  if configName = "" then
    (false, st)
  else
    match fs st.dllHome (configName ++ ".cfg") with
    | some lines =>
      (true, { st with
        config := { lines.foldl (parseLine stof) st.config with loaded := true } })
    | none => (false, st)

/-! ## `FOVModifier_xrCreateApiLayerInstance` (lines 244-285) -/

/-- The application identity of a creation request (`XrApplicationInfo`). -/
structure XrApplicationInfo where
  applicationName : String
  applicationVersion : Nat
  engineName : String
  engineVersion : Nat
  apiVersion : Nat
  deriving DecidableEq, Repr

/-- The creation request (`XrInstanceCreateInfo`). -/
structure XrInstanceCreateInfo where
  type : Int
  next : Nat
  createFlags : Nat
  applicationInfo : XrApplicationInfo
  enabledApiLayerNames : List String
  enabledExtensionNames : List String
  deriving DecidableEq, Repr

/-- The chain information of a layer creation (`XrApiLayerNextInfo`). -/
structure XrApiLayerNextInfo where
  structType : Int
  structVersion : Nat
  structSize : Nat
  layerName : String
  nextGetInstanceProcAddr : FnPtr
  nextCreateApiLayerInstance : FnPtr
  next : Nat
  deriving DecidableEq, Repr

/-- The layer-creation information (`XrApiLayerCreateInfo`); a null `nextInfo`
is `none`. -/
structure XrApiLayerCreateInfo where
  structType : Int
  structVersion : Nat
  structSize : Nat
  loaderInstance : Nat
  settings_file_location : String
  nextInfo : Option XrApiLayerNextInfo
  deriving DecidableEq, Repr

/-- Behaviour of a function of type `PFN_xrCreateApiLayerInstance` acting on
the state `W` of everything below this layer: from the two request structures,
the prior contents of `*instance` and the state below, to the status, the new
contents of `*instance` and the state below afterwards. -/
abbrev PFN_xrCreateApiLayerInstance (W : Type) :=
  XrInstanceCreateInfo → XrApiLayerCreateInfo → XrInstance → W → XrResult × XrInstance × W

/-- The function `FOVModifier_xrCreateApiLayerInstance`.  A null `apiLayerInfo`
is `none`; `nextCreate` is the behaviour of the function
`apiLayerInfo->nextInfo->nextCreateApiLayerInstance` points to.  Returns the
status, the contents of `*instance`, the globals and the state below the layer
afterwards. -/
def FOVModifier_xrCreateApiLayerInstance {F W : Type} [One F] (H : OpenXRHeader)
    (stof : String → Option F) (fs : FileSystem) (nextCreate : PFN_xrCreateApiLayerInstance W)
    (st : LayerState F) (instanceCreateInfo : XrInstanceCreateInfo)
    (apiLayerInfo : Option XrApiLayerCreateInfo) (instance_ : XrInstance) (w : W) :
    XrResult × XrInstance × LayerState F × W :=
  match apiLayerInfo with
  | none => (H.XR_ERROR_INITIALIZATION_FAILED, instance_, st, w)
  | some info =>
    if info.structType ≠ H.XR_LOADER_INTERFACE_STRUCT_API_LAYER_CREATE_INFO ∨
        info.structVersion ≠ H.XR_API_LAYER_CREATE_INFO_STRUCT_VERSION ∨
        info.structSize ≠ H.sizeofXrApiLayerCreateInfo then
      (H.XR_ERROR_INITIALIZATION_FAILED, instance_, st, w)
    else
      match info.nextInfo with
      | none => (H.XR_ERROR_INITIALIZATION_FAILED, instance_, st, w)
      | some nextInfo =>
        if nextInfo.structType ≠ H.XR_LOADER_INTERFACE_STRUCT_API_LAYER_NEXT_INFO ∨
            nextInfo.structVersion ≠ H.XR_API_LAYER_NEXT_INFO_STRUCT_VERSION ∨
            nextInfo.structSize ≠ H.sizeofXrApiLayerNextInfo ∨
            nextInfo.layerName ≠ LayerName ∨
            nextInfo.nextGetInstanceProcAddr = FnPtr.null ∨
            nextInfo.nextCreateApiLayerInstance = FnPtr.null then
          (H.XR_ERROR_INITIALIZATION_FAILED, instance_, st, w)
        else
          let st1 := { st with nextXrGetInstanceProcAddr := nextInfo.nextGetInstanceProcAddr }
          let r := nextCreate instanceCreateInfo info instance_ w
          if r.1 = H.XR_SUCCESS then
            let st2 := { st1 with config := st1.config.Reset }
            let byApplication :=
              LoadConfiguration stof fs st2 instanceCreateInfo.applicationInfo.applicationName
            if byApplication.1 = false then
              (r.1, r.2.1,
                (LoadConfiguration stof fs byApplication.2
                  instanceCreateInfo.applicationInfo.engineName).2, r.2.2)
            else
              (r.1, r.2.1, byApplication.2, r.2.2)
          else
            (r.1, r.2.1, st1, r.2.2)

/-! ## `std::stof` -/

/-- The classification `isspace` of the C locale. -/
def isspace (c : Char) : Bool :=
  c = ' ' || c = '\t' || c = '\n' || c = '\x0b' || c = '\x0c' || c = '\r'

/-- The classification `isxdigit`. -/
def isxdigit (c : Char) : Bool :=
  c.isDigit || ('a' ≤ c && c ≤ 'f') || ('A' ≤ c && c ≤ 'F')

/-- A nonempty sequence of digits optionally containing a decimal point, at the
start of `cs`: the text matched and the text after it, `none` when no digit is
there. -/
def scanDigitsWithPoint (digit : Char → Bool) (cs : List Char) :
    Option (List Char × List Char) :=
  match cs.span digit with
  | (whole, '.' :: rest) =>
    if whole.isEmpty && (rest.takeWhile digit).isEmpty then none
    else some (whole ++ '.' :: rest.takeWhile digit, rest.dropWhile digit)
  | (whole, rest) => if whole.isEmpty then none else some (whole, rest)

/-- An optional sign followed by a nonempty sequence of decimal digits at the
start of `cs`; empty when that form is not there. -/
def scanSignedDigits (cs : List Char) : List Char :=
  match cs with
  | '+' :: ds =>
    if (ds.takeWhile Char.isDigit).isEmpty then [] else '+' :: ds.takeWhile Char.isDigit
  | '-' :: ds =>
    if (ds.takeWhile Char.isDigit).isEmpty then [] else '-' :: ds.takeWhile Char.isDigit
  | ds => ds.takeWhile Char.isDigit

/-- The optional exponent part at the start of `cs`: the marker (`e` or `p`, in
either case), an optional sign and a nonempty sequence of decimal digits; empty
when that form is not there. -/
def scanExponentPart (marker : Char) (cs : List Char) : List Char :=
  match cs with
  | c :: rest =>
    if c.toLower = marker && !(scanSignedDigits rest).isEmpty then c :: scanSignedDigits rest
    else []
  | [] => []

/-- Whether `cs` starts with `word` (given in lower case), ignoring case. -/
def startsWithIgnoringCase (word : List Char) (cs : List Char) : Bool :=
  (cs.take word.length).map Char.toLower = word

/-- The optional `(n-char-sequence)` after `NAN`; empty when that form is not
there. -/
def scanNanSuffix (cs : List Char) : List Char :=
  match cs with
  | '(' :: rest =>
    match rest.dropWhile fun c => c.isAlphanum || c = '_' with
    | ')' :: _ => '(' :: rest.takeWhile (fun c => c.isAlphanum || c = '_') ++ [')']
    | _ => []
  | _ => []

/-- The longest prefix of `cs` that is a number without sign, in the forms
`strtof` accepts: a hexadecimal number, a decimal number, `INF`, `INFINITY`,
`NAN` or `NAN(...)`. -/
def scanUnsigned (cs : List Char) : Option (List Char) :=
  let hexadecimal :=
    match cs with
    | '0' :: x :: rest =>
      if x.toLower = 'x' then
        match scanDigitsWithPoint isxdigit rest with
        | some (mantissa, after) => some ('0' :: x :: mantissa ++ scanExponentPart 'p' after)
        | none => none
      else none
    | _ => none
  match hexadecimal with
  | some lexeme => some lexeme
  | none =>
    match scanDigitsWithPoint Char.isDigit cs with
    | some (mantissa, after) => some (mantissa ++ scanExponentPart 'e' after)
    | none =>
      if startsWithIgnoringCase ['i', 'n', 'f', 'i', 'n', 'i', 't', 'y'] cs then
        some (cs.take 8)
      else if startsWithIgnoringCase ['i', 'n', 'f'] cs then some (cs.take 3)
      else if startsWithIgnoringCase ['n', 'a', 'n'] cs then
        some (cs.take 3 ++ scanNanSuffix (cs.drop 3))
      else none

/-- The subject sequence of `strtof`: leading white space is skipped, then the
longest text of the form optional sign and number is taken; `none` when no such
text is there. -/
def subjectSequence (cs : List Char) : Option (List Char) :=
  match cs.dropWhile isspace with
  | '+' :: rest => (scanUnsigned rest).map fun lexeme => '+' :: lexeme
  | '-' :: rest => (scanUnsigned rest).map fun lexeme => '-' :: lexeme
  | rest => scanUnsigned rest

/-- The library function `std::stof` of the C++ standard library (it calls
`strtof`).  It throws `std::invalid_argument` when the string has no subject
sequence, and otherwise returns the `float` for the subject sequence, ignoring
whatever follows it, or throws `std::out_of_range`.  A thrown exception is
`none`.  The rounding of a subject sequence to a `float`, and whether it is out
of range, is the parameter `convert`. -/
def stof {F : Type} (convert : String → Option F) (str : String) : Option F :=
  match subjectSequence str.data with
  | some lexeme => convert (String.mk lexeme)
  | none => none

/-! ## The eight keys -/

/-- The eight recognized keys of a configuration file. -/
inductive Key where
  | leftUp
  | leftDown
  | leftLeft
  | leftRight
  | rightUp
  | rightDown
  | rightLeft
  | rightRight
  deriving DecidableEq, Repr

/-- The text of a key as lines 130-158 compare it. -/
def Key.name : Key → String
  | Key.leftUp => "left.up"
  | Key.leftDown => "left.down"
  | Key.leftLeft => "left.left"
  | Key.leftRight => "left.right"
  | Key.rightUp => "right.up"
  | Key.rightDown => "right.down"
  | Key.rightLeft => "right.left"
  | Key.rightRight => "right.right"

/-- The key with the given text, if any. -/
def keyOfName (name : String) : Option Key :=
  if name = "left.up" then some Key.leftUp
  else if name = "left.down" then some Key.leftDown
  else if name = "left.left" then some Key.leftLeft
  else if name = "left.right" then some Key.leftRight
  else if name = "right.up" then some Key.rightUp
  else if name = "right.down" then some Key.rightDown
  else if name = "right.left" then some Key.rightLeft
  else if name = "right.right" then some Key.rightRight
  else none

/-- The field of `config` a key names. -/
def Config.factor {F : Type} (config : Config F) : Key → F
  | Key.leftUp => config.leftAngleUp
  | Key.leftDown => config.leftAngleDown
  | Key.leftLeft => config.leftAngleLeft
  | Key.leftRight => config.leftAngleRight
  | Key.rightUp => config.rightAngleUp
  | Key.rightDown => config.rightAngleDown
  | Key.rightLeft => config.rightAngleLeft
  | Key.rightRight => config.rightAngleRight

/-- The index of the view a key names: 0 for `left.*`, 1 for `right.*`. -/
def Key.view : Key → Nat
  | Key.leftUp => 0
  | Key.leftDown => 0
  | Key.leftLeft => 0
  | Key.leftRight => 0
  | Key.rightUp => 1
  | Key.rightDown => 1
  | Key.rightLeft => 1
  | Key.rightRight => 1

/-- The angle of a field of view a key names by its edge. -/
def Key.angle {F : Type} (k : Key) (fov : XrFovf F) : F :=
  match k with
  | Key.leftUp => fov.angleUp
  | Key.leftDown => fov.angleDown
  | Key.leftLeft => fov.angleLeft
  | Key.leftRight => fov.angleRight
  | Key.rightUp => fov.angleUp
  | Key.rightDown => fov.angleDown
  | Key.rightLeft => fov.angleLeft
  | Key.rightRight => fov.angleRight

/-- The view of a pair a key names: the first for `left.*`, the second for
`right.*`. -/
def Key.eye {F : Type} (k : Key) (view0 view1 : XrView F) : XrView F :=
  match k.view with
  | 0 => view0
  | _ => view1

/-- What a line sets, in the words of the file format: the line is split at its
first `=`; when the left-hand substring is a recognized key and the right-hand
substring parses to a value, the line sets that key to that value, and
otherwise it sets nothing. -/
def assignment {F : Type} (stof : String → Option F) (line : String) : Option (Key × F) :=
  match find line '=' with
  | some offset =>
    match keyOfName (substr line 0 offset), stof (substrFrom line (offset + 1)) with
    | some k, some value => some (k, value)
    | _, _ => none
  | none => none

/-- The value the last line of `lines` that sets key `k` gives it, `none` when
no line sets `k`. -/
def lastAssigned {F : Type} (stof : String → Option F) (lines : List String) (k : Key) :
    Option F :=
  (lines.filterMap fun line =>
    match assignment stof line with
    | some (k1, value) => if k1 = k then some value else none
    | none => none).getLast?

/-- The default state of the configuration in the words of the data model: not
loaded, all eight factors `1.0`. -/
def defaultConfig {F : Type} [One F] : Config F where
  loaded := false
  leftAngleUp := 1
  leftAngleDown := 1
  leftAngleLeft := 1
  leftAngleRight := 1
  rightAngleUp := 1
  rightAngleDown := 1
  rightAngleLeft := 1
  rightAngleRight := 1

/-- A creation request passes validation: none of the comparisons of lines
252-261 on the two structures holds. -/
def passesValidation (H : OpenXRHeader) (info : XrApiLayerCreateInfo)
    (nextInfo : XrApiLayerNextInfo) : Prop :=
  info.structType = H.XR_LOADER_INTERFACE_STRUCT_API_LAYER_CREATE_INFO ∧
  info.structVersion = H.XR_API_LAYER_CREATE_INFO_STRUCT_VERSION ∧
  info.structSize = H.sizeofXrApiLayerCreateInfo ∧
  nextInfo.structType = H.XR_LOADER_INTERFACE_STRUCT_API_LAYER_NEXT_INFO ∧
  nextInfo.structVersion = H.XR_API_LAYER_NEXT_INFO_STRUCT_VERSION ∧
  nextInfo.structSize = H.sizeofXrApiLayerNextInfo ∧
  nextInfo.layerName = LayerName ∧
  nextInfo.nextGetInstanceProcAddr ≠ FnPtr.null ∧
  nextInfo.nextCreateApiLayerInstance ≠ FnPtr.null

instance (H : OpenXRHeader) (info : XrApiLayerCreateInfo) (nextInfo : XrApiLayerNextInfo) :
    Decidable (passesValidation H info nextInfo) := by
  unfold passesValidation
  infer_instance

/-- The configuration a file yields when its lines are parsed over `config`:
the fold of lines 118-168 followed by line 171. -/
def parseFile {F : Type} (stof : String → Option F) (config : Config F)
    (lines : List String) : Config F :=
  { lines.foldl (parseLine stof) config with loaded := true }

/-- The lines of the configuration file of an identity, `none` when the
identity is empty or its file does not open. -/
def configFile (fs : FileSystem) (dllHome identity : String) : Option (List String) :=
  if identity = "" then none else fs dllHome (identity ++ ".cfg")

/-! ## Sequences of calls -/

/-- One call the host makes into the layer, with the behaviour of the delegate
the call reaches and, for a creation, the file system at that time. -/
inductive Call (F W : Type) where
  | negotiate (moduleDir : Option String) (loaderInfo : Option XrNegotiateLoaderInfo)
      (apiLayerName : Option String) (apiLayerRequest : Option XrNegotiateApiLayerRequest)
  | createInstance (fs : FileSystem) (nextCreate : PFN_xrCreateApiLayerInstance W)
      (instanceCreateInfo : XrInstanceCreateInfo)
      (apiLayerInfo : Option XrApiLayerCreateInfo) (instance_ : XrInstance)
  | getInstanceProcAddr (next : PFN_xrGetInstanceProcAddr) (instance_ : XrInstance)
      (name : String) (function : FnPtr)
  | locateViews (next : PFN_xrLocateViews F) (session : XrSession)
      (viewLocateInfo : XrViewLocateInfo) (viewState : XrViewState)
      (viewCapacityInput : Nat) (viewCountOutput : Nat) (views : List (XrView F))

/-- The globals and the state below the layer, together with two facts about
the calls made so far: whether the resolver has returned the address of the
wrapper, and the reference the next resolver returned on the most recent
resolution of `xrLocateViews` that the layer intercepted (configuration loaded,
delegate successful). -/
structure Observed (F W : Type) where
  st : LayerState F
  below : W
  wrapperHandedOut : Bool
  lastIntercepted : Option FnPtr

/-- The effect of one call.  The wrapper assigns no global, so a `locateViews`
call leaves everything as it is. -/
def step {F W : Type} [One F] (H : OpenXRHeader) (stof : String → Option F)
    (o : Observed F W) : Call F W → Observed F W
  | Call.negotiate moduleDir loaderInfo apiLayerName apiLayerRequest =>
    { o with
      st := (FOVModifier_xrNegotiateLoaderApiLayerInterface H moduleDir o.st loaderInfo
        apiLayerName apiLayerRequest).2.2 }
  | Call.createInstance fs nextCreate instanceCreateInfo apiLayerInfo instance_ =>
    { o with
      st := (FOVModifier_xrCreateApiLayerInstance H stof fs nextCreate o.st
        instanceCreateInfo apiLayerInfo instance_ o.below).2.2.1
      below := (FOVModifier_xrCreateApiLayerInstance H stof fs nextCreate o.st
        instanceCreateInfo apiLayerInfo instance_ o.below).2.2.2 }
  | Call.getInstanceProcAddr next instance_ name function =>
    { o with
      st := (FOVModifier_xrGetInstanceProcAddr H next o.st instance_ name function).2.2
      wrapperHandedOut := o.wrapperHandedOut ||
        decide ((FOVModifier_xrGetInstanceProcAddr H next o.st instance_ name function).2.1 =
          FnPtr.addr_FOVModifier_xrLocateViews)
      lastIntercepted :=
        if name = "xrLocateViews" ∧ o.st.config.loaded = true ∧
            (next instance_ name function).1 = H.XR_SUCCESS then
          some (next instance_ name function).2
        else o.lastIntercepted }
  | Call.locateViews _ _ _ _ _ _ _ => o

/-- The proviso on a call: a next resolver does not return the address of this
layer's wrapper. -/
def Call.resolverAvoidsWrapper {F W : Type} : Call F W → Prop
  | Call.getInstanceProcAddr next instance_ name function =>
    (next instance_ name function).2 ≠ FnPtr.addr_FOVModifier_xrLocateViews
  | _ => True

/-- The state observed after a sequence of calls. -/
def run {F W : Type} [One F] (H : OpenXRHeader) (stof : String → Option F)
    (o : Observed F W) (calls : List (Call F W)) : Observed F W :=
  calls.foldl (step H stof) o

/-! ## Concrete inputs -/

/-- Header values of OpenXR 1.0.17 on a 64-bit target. -/
def openxrHeader : OpenXRHeader where
  XR_SUCCESS := 0
  XR_ERROR_INITIALIZATION_FAILED := -6
  XR_VIEW_CONFIGURATION_TYPE_PRIMARY_STEREO := 2
  XR_LOADER_INTERFACE_STRUCT_LOADER_INFO := 1
  XR_LOADER_INTERFACE_STRUCT_API_LAYER_REQUEST := 2
  XR_LOADER_INFO_STRUCT_VERSION := 1
  XR_API_LAYER_INFO_STRUCT_VERSION := 1
  XR_CURRENT_LOADER_API_LAYER_VERSION := 1
  XR_CURRENT_API_VERSION := 281474976710673
  sizeofXrNegotiateLoaderInfo := 40
  sizeofXrNegotiateApiLayerRequest := 48
  XR_LOADER_INTERFACE_STRUCT_API_LAYER_CREATE_INFO := 4
  XR_LOADER_INTERFACE_STRUCT_API_LAYER_NEXT_INFO := 5
  XR_API_LAYER_CREATE_INFO_STRUCT_VERSION := 1
  XR_API_LAYER_NEXT_INFO_STRUCT_VERSION := 1
  sizeofXrApiLayerCreateInfo := 544
  sizeofXrApiLayerNextInfo := 296

/-- A configuration with eight distinct factors. -/
def sampleConfig : Config ℚ where
  loaded := true
  leftAngleUp := 4 / 5
  leftAngleDown := 9 / 10
  leftAngleLeft := 3 / 4
  leftAngleRight := 7 / 10
  rightAngleUp := 1 / 2
  rightAngleDown := 3 / 5
  rightAngleLeft := 2 / 3
  rightAngleRight := 5 / 6

/-- Globals after a creation that loaded `sampleConfig`. -/
def sampleState : LayerState ℚ where
  dllHome := "C:/layers"
  nextXrGetInstanceProcAddr := FnPtr.foreign 4096
  nextXrLocateViews := FnPtr.foreign 8192
  config := sampleConfig

/-- A view with the identity pose and the four given angles. -/
def sampleView (l r u d : ℚ) : XrView ℚ where
  type := 7
  next := 0
  pose := { orientation := { x := 0, y := 0, z := 0, w := 1 },
            position := { x := 0, y := 0, z := 0 } }
  fov := { angleLeft := l, angleRight := r, angleUp := u, angleDown := d }

/-- A view-locate query of the given view-configuration kind. -/
def sampleQuery (kind : Int) : XrViewLocateInfo where
  type := 6
  next := 0
  viewConfigurationType := kind
  displayTime := 1000
  space := 1

/-- A view-state location before the call. -/
def sampleViewState : XrViewState where
  type := 11
  next := 0
  viewStateFlags := 0

/-- A runtime `xrLocateViews` following the two-call idiom: with capacity 0 it
reports the required count 2 and succeeds without touching the array, with
capacity 1 it fails with `XR_ERROR_SIZE_INSUFFICIENT` (-11), and otherwise it
fills the first two entries and succeeds. -/
def sampleRuntime : PFN_xrLocateViews ℚ :=
  fun _ _ viewState viewCapacityInput _ views =>
    if viewCapacityInput = 0 then
      { result := 0, viewState := { viewState with viewStateFlags := 15 },
        viewCountOutput := 2, views := views }
    else if viewCapacityInput < 2 then
      { result := -11, viewState := viewState, viewCountOutput := 2, views := views }
    else
      { result := 0, viewState := { viewState with viewStateFlags := 15 },
        viewCountOutput := 2,
        views := sampleView (-1) 1 (4 / 5) (-4 / 5) :: sampleView (-1) 1 (4 / 5) (-4 / 5) ::
          views.drop 2 }

/-- A runtime `xrLocateViews` that always fails with the given status and
leaves every output location as it was. -/
def failingRuntime (status : XrResult) : PFN_xrLocateViews ℚ :=
  fun _ _ viewState _ viewCountOutput views =>
    { result := status, viewState := viewState, viewCountOutput := viewCountOutput,
      views := views }

/-- A next-layer resolver: it knows `xrLocateViews` and `xrEndFrame`, and for
any other name fails with `XR_ERROR_FUNCTION_UNSUPPORTED` (-7) and stores a
null pointer. -/
def sampleResolver : PFN_xrGetInstanceProcAddr :=
  fun _ name _ =>
    if name = "xrLocateViews" then (0, FnPtr.foreign 8192)
    else if name = "xrEndFrame" then (0, FnPtr.foreign 8200)
    else (-7, FnPtr.null)

/-- Globals before any call: nothing located, resolved or loaded. -/
def initialState : LayerState ℚ where
  dllHome := ""
  nextXrGetInstanceProcAddr := FnPtr.null
  nextXrLocateViews := FnPtr.null
  config :=
    { loaded := false, leftAngleUp := 0, leftAngleDown := 0, leftAngleLeft := 0,
      leftAngleRight := 0, rightAngleUp := 0, rightAngleDown := 0, rightAngleLeft := 0,
      rightAngleRight := 0 }

/-- A loader-info structure with every tag as compiled, the API range 1.0.0 to
1.0.4095 and the given interface-version range. -/
def sampleLoaderInfo (minInterfaceVersion maxInterfaceVersion : Nat) :
    XrNegotiateLoaderInfo where
  structType := 1
  structVersion := 1
  structSize := 40
  minInterfaceVersion := minInterfaceVersion
  maxInterfaceVersion := maxInterfaceVersion
  minApiVersion := 281474976710656
  maxApiVersion := 281474976714751

/-- A layer-request structure with every tag as compiled and the fields the
layer fills in still zero. -/
def sampleRequest : XrNegotiateApiLayerRequest where
  structType := 2
  structVersion := 1
  structSize := 48
  layerInterfaceVersion := 0
  layerApiVersion := 0
  getInstanceProcAddr := FnPtr.null
  createApiLayerInstance := FnPtr.null

/-- The number a sequence of decimal digits denotes. -/
def decimalDigits (ds : List Char) : Nat :=
  ds.foldl (fun n c => 10 * n + (c.toNat - 48)) 0

/-- An exact conversion of a decimal subject sequence (sign, digits with
optional point, optional exponent) to a rational number; the other forms,
which have no rational value or are not decimal, are reported out of range. -/
def exactValue (lexeme : String) : Option ℚ :=
  let unsigned :=
    match lexeme.data with
    | '+' :: r => r
    | '-' :: r => r
    | r => r
  let whole := unsigned.takeWhile Char.isDigit
  let afterWhole := unsigned.dropWhile Char.isDigit
  let frac :=
    match afterWhole with
    | '.' :: r => r.takeWhile Char.isDigit
    | _ => []
  let afterFrac :=
    match afterWhole with
    | '.' :: r => r.dropWhile Char.isDigit
    | r => r
  let exponent : Option Int :=
    match afterFrac with
    | [] => some 0
    | c :: '-' :: ds => if c.toLower = 'e' then some (-(decimalDigits ds : Int)) else none
    | c :: '+' :: ds => if c.toLower = 'e' then some (decimalDigits ds : Int) else none
    | c :: ds => if c.toLower = 'e' then some (decimalDigits ds : Int) else none
  if whole.isEmpty && frac.isEmpty then none
  else
    match exponent with
    | none => none
    | some e =>
      let magnitude : ℚ :=
        if 0 ≤ e - frac.length then
          ((decimalDigits (whole ++ frac) * 10 ^ (e - frac.length).toNat : Nat) : ℚ)
        else mkRat (decimalDigits (whole ++ frac)) (10 ^ (frac.length - e).toNat)
      some (if lexeme.data.head? = some '-' then -magnitude else magnitude)

/-- The parser `std::stof` with exact conversion. -/
def sampleStof : String → Option ℚ := stof exactValue

/-- A directory with two configuration files: `HelloXR.cfg` with one line that
every claim about malformed lines mentions and a duplicate key, and
`UnrealEngine.cfg` with one line. -/
def sampleFiles : FileSystem :=
  fun dir file =>
    if dir = "C:/layers" ∧ file = "HelloXR.cfg" then
      some ["nonsense_no_equals", "left.up=notanumber", "right.down=0.5", "  left.up = 0.9",
        "right.down=0.9", "left.left=1.25e-1"]
    else if dir = "C:/layers" ∧ file = "UnrealEngine.cfg" then
      some ["left.up=0.8"]
    else none

/-- A creation request naming the given application and engine. -/
def sampleCreateInfo (applicationName engineName : String) : XrInstanceCreateInfo where
  type := 3
  next := 0
  createFlags := 0
  applicationInfo :=
    { applicationName := applicationName, applicationVersion := 1,
      engineName := engineName, engineVersion := 1, apiVersion := 281474976710673 }
  enabledApiLayerNames := []
  enabledExtensionNames := []

/-- Chain information as the loader builds it for this layer. -/
def sampleNextInfo : XrApiLayerNextInfo where
  structType := 5
  structVersion := 1
  structSize := 296
  layerName := "XR_APILAYER_NOVENDOR_fov_modifier"
  nextGetInstanceProcAddr := FnPtr.foreign 4096
  nextCreateApiLayerInstance := FnPtr.foreign 4104
  next := 0

/-- Layer-creation information carrying the given chain information. -/
def sampleLayerInfo (nextInfo : Option XrApiLayerNextInfo) : XrApiLayerCreateInfo where
  structType := 4
  structVersion := 1
  structSize := 544
  loaderInstance := 1
  settings_file_location := ""
  nextInfo := nextInfo

/-- A next-layer creation that returns the given status, stores handle 77 and
counts its invocations in the state below the layer. -/
def sampleCreate (status : XrResult) : PFN_xrCreateApiLayerInstance Nat :=
  fun _ _ _ invocations => (status, 77, invocations + 1)

/-- Globals after a successful negotiation and before any creation. -/
def negotiatedState : LayerState ℚ where
  dllHome := "C:/layers"
  nextXrGetInstanceProcAddr := FnPtr.null
  nextXrLocateViews := FnPtr.null
  config :=
    { loaded := false, leftAngleUp := 0, leftAngleDown := 0, leftAngleLeft := 0,
      leftAngleRight := 0, rightAngleUp := 0, rightAngleDown := 0, rightAngleLeft := 0,
      rightAngleRight := 0 }

/-- What is observed before the first call. -/
def initialObserved : Observed ℚ Nat where
  st := initialState
  below := 0
  wrapperHandedOut := false
  lastIntercepted := none

/-- A session of the host: negotiation, creation for `HelloXR`, three
resolutions, of which two are of the watched name, and a wrapper call. -/
def sampleCalls : List (Call ℚ Nat) :=
  [Call.negotiate (some "C:/layers") (some (sampleLoaderInfo 1 1)) none (some sampleRequest),
    Call.createInstance sampleFiles (sampleCreate 0) (sampleCreateInfo "HelloXR" "UnrealEngine")
      (some (sampleLayerInfo (some sampleNextInfo))) 0,
    Call.getInstanceProcAddr sampleResolver 77 "xrLocateViews" FnPtr.null,
    Call.getInstanceProcAddr sampleResolver 77 "xrEndFrame" FnPtr.null,
    Call.getInstanceProcAddr sampleResolver 77 "xrLocateViews" FnPtr.null,
    Call.locateViews sampleRuntime 1 (sampleQuery 2) sampleViewState 2 0
      [sampleView 0 0 0 0, sampleView 0 0 0 0]]

/-! ## Lemmas on the eight assignments -/

/-- View 0 after lines 199-202. -/
def scaleLeft {F : Type} [Mul F] (config : Config F) (v : XrView F) : XrView F :=
  { v with fov :=
      { angleLeft := v.fov.angleLeft * config.leftAngleLeft
        angleRight := v.fov.angleRight * config.leftAngleRight
        angleUp := v.fov.angleUp * config.leftAngleUp
        angleDown := v.fov.angleDown * config.leftAngleDown } }

/-- View 1 after lines 203-206. -/
def scaleRight {F : Type} [Mul F] (config : Config F) (v : XrView F) : XrView F :=
  { v with fov :=
      { angleLeft := v.fov.angleLeft * config.rightAngleLeft
        angleRight := v.fov.angleRight * config.rightAngleRight
        angleUp := v.fov.angleUp * config.rightAngleUp
        angleDown := v.fov.angleDown * config.rightAngleDown } }

theorem applyFov_nil {F : Type} [Mul F] (config : Config F) :
    applyFov config [] = Except.error (Fault.outOfBounds 0 0) := rfl

theorem applyFov_one {F : Type} [Mul F] (config : Config F) (v : XrView F) :
    applyFov config [v] = Except.error (Fault.outOfBounds 1 1) := rfl

theorem applyFov_two {F : Type} [Mul F] (config : Config F) (v0 v1 : XrView F)
    (rest : List (XrView F)) :
    applyFov config (v0 :: v1 :: rest) =
      Except.ok (scaleLeft config v0 :: scaleRight config v1 :: rest) := by
  simp [applyFov, mulAngleDown, mulAngleUp, mulAngleLeft, mulAngleRight, modifyView,
    scaleLeft, scaleRight, bind, Except.bind]

/-- With fewer than two entries the eight assignments leave the array: the
first missing entry is the one whose index is the length of the array. -/
theorem applyFov_short {F : Type} [Mul F] (config : Config F) (views : List (XrView F))
    (h : views.length < 2) :
    applyFov config views = Except.error (Fault.outOfBounds views.length views.length) := by
  match views, h with
  | [], _ => exact applyFov_nil config
  | [v], _ => exact applyFov_one config v
  | _ :: _ :: _, h =>
    simp only [List.length_cons] at h
    omega

/-! ## The view transform -/

/-- C1: when the recorded original reports success and the query is of the
dual-eye stereo kind, each of the eight output angles is the angle the original
produced multiplied by the corresponding factor: view 0 by the four left-eye
factors, view 1 by the four right-eye factors, edge by edge.  `o0` and `o1` are
the two views the original left in the array. -/
theorem locateViews_stereo_scales {F : Type} [Mul F] (H : OpenXRHeader)
    (next : PFN_xrLocateViews F) (st : LayerState F) (session : XrSession)
    (viewLocateInfo : XrViewLocateInfo) (viewState : XrViewState)
    (viewCapacityInput viewCountOutput : Nat) (views : List (XrView F)) (o0 o1 : XrView F)
    (hres : (next session viewLocateInfo viewState viewCapacityInput viewCountOutput
      views).result = H.XR_SUCCESS)
    (hkind : viewLocateInfo.viewConfigurationType =
      H.XR_VIEW_CONFIGURATION_TYPE_PRIMARY_STEREO)
    (h0 : (next session viewLocateInfo viewState viewCapacityInput viewCountOutput
      views).views[0]? = some o0)
    (h1 : (next session viewLocateInfo viewState viewCapacityInput viewCountOutput
      views).views[1]? = some o1) :
    ∃ out w0 w1,
      FOVModifier_xrLocateViews H next st session viewLocateInfo viewState
        viewCapacityInput viewCountOutput views = Except.ok out ∧
      out.views[0]? = some w0 ∧ out.views[1]? = some w1 ∧
      w0.fov.angleUp = o0.fov.angleUp * st.config.leftAngleUp ∧
      w0.fov.angleDown = o0.fov.angleDown * st.config.leftAngleDown ∧
      w0.fov.angleLeft = o0.fov.angleLeft * st.config.leftAngleLeft ∧
      w0.fov.angleRight = o0.fov.angleRight * st.config.leftAngleRight ∧
      w1.fov.angleUp = o1.fov.angleUp * st.config.rightAngleUp ∧
      w1.fov.angleDown = o1.fov.angleDown * st.config.rightAngleDown ∧
      w1.fov.angleLeft = o1.fov.angleLeft * st.config.rightAngleLeft ∧
      w1.fov.angleRight = o1.fov.angleRight * st.config.rightAngleRight := by
  unfold FOVModifier_xrLocateViews
  generalize next session viewLocateInfo viewState viewCapacityInput viewCountOutput
    views = r at hres h0 h1
  obtain ⟨res, vs, cnt, vws⟩ := r
  match vws, h0, h1 with
  | a :: b :: rest, h0, h1 =>
    simp only [List.getElem?_cons_zero, List.getElem?_cons_succ, Option.some.injEq] at h0 h1
    subst h0
    subst h1
    simp only at hres
    refine ⟨⟨res, vs, cnt, scaleLeft st.config a :: scaleRight st.config b :: rest⟩,
      scaleLeft st.config a, scaleRight st.config b, ?_, by simp, by simp, rfl, rfl, rfl,
      rfl, rfl, rfl, rfl, rfl⟩
    simp [hres, hkind, applyFov_two]

/-- Witness for C1: the sample runtime called with a two-entry array. -/
theorem locateViews_stereo_scales_witness :
    (sampleRuntime 1 (sampleQuery 2) sampleViewState 2 0
        [sampleView 0 0 0 0, sampleView 0 0 0 0]).result = openxrHeader.XR_SUCCESS ∧
    (sampleQuery 2).viewConfigurationType =
      openxrHeader.XR_VIEW_CONFIGURATION_TYPE_PRIMARY_STEREO ∧
    ∃ out w0 w1,
      FOVModifier_xrLocateViews openxrHeader sampleRuntime sampleState 1 (sampleQuery 2)
        sampleViewState 2 0 [sampleView 0 0 0 0, sampleView 0 0 0 0] = Except.ok out ∧
      out.views[0]? = some w0 ∧ out.views[1]? = some w1 ∧
      w0.fov.angleUp = (sampleView (-1) 1 (4 / 5) (-4 / 5)).fov.angleUp *
        sampleState.config.leftAngleUp ∧
      w0.fov.angleDown = (sampleView (-1) 1 (4 / 5) (-4 / 5)).fov.angleDown *
        sampleState.config.leftAngleDown ∧
      w0.fov.angleLeft = (sampleView (-1) 1 (4 / 5) (-4 / 5)).fov.angleLeft *
        sampleState.config.leftAngleLeft ∧
      w0.fov.angleRight = (sampleView (-1) 1 (4 / 5) (-4 / 5)).fov.angleRight *
        sampleState.config.leftAngleRight ∧
      w1.fov.angleUp = (sampleView (-1) 1 (4 / 5) (-4 / 5)).fov.angleUp *
        sampleState.config.rightAngleUp ∧
      w1.fov.angleDown = (sampleView (-1) 1 (4 / 5) (-4 / 5)).fov.angleDown *
        sampleState.config.rightAngleDown ∧
      w1.fov.angleLeft = (sampleView (-1) 1 (4 / 5) (-4 / 5)).fov.angleLeft *
        sampleState.config.rightAngleLeft ∧
      w1.fov.angleRight = (sampleView (-1) 1 (4 / 5) (-4 / 5)).fov.angleRight *
        sampleState.config.rightAngleRight :=
  ⟨rfl, rfl,
    locateViews_stereo_scales openxrHeader sampleRuntime sampleState 1 (sampleQuery 2)
      sampleViewState 2 0 [sampleView 0 0 0 0, sampleView 0 0 0 0]
      (sampleView (-1) 1 (4 / 5) (-4 / 5)) (sampleView (-1) 1 (4 / 5) (-4 / 5))
      rfl rfl rfl rfl⟩

/-- C2: when the recorded original returns a status other than success, the
wrapper completes, returns exactly that status, and the view state, the view
count and the whole view array are what the original produced. -/
theorem locateViews_failure_passthrough {F : Type} [Mul F] (H : OpenXRHeader)
    (next : PFN_xrLocateViews F) (st : LayerState F) (session : XrSession)
    (viewLocateInfo : XrViewLocateInfo) (viewState : XrViewState)
    (viewCapacityInput viewCountOutput : Nat) (views : List (XrView F))
    (hres : (next session viewLocateInfo viewState viewCapacityInput viewCountOutput
      views).result ≠ H.XR_SUCCESS) :
    FOVModifier_xrLocateViews H next st session viewLocateInfo viewState
        viewCapacityInput viewCountOutput views =
      Except.ok (next session viewLocateInfo viewState viewCapacityInput viewCountOutput
        views) := by
  simp [FOVModifier_xrLocateViews, hres]

/-- Witness for C2: a runtime failing with `XR_ERROR_SESSION_LOST` (-17). -/
theorem locateViews_failure_passthrough_witness :
    (failingRuntime (-17) 1 (sampleQuery 2) sampleViewState 2 0
        [sampleView 1 2 3 4, sampleView 5 6 7 8]).result ≠ openxrHeader.XR_SUCCESS ∧
    FOVModifier_xrLocateViews openxrHeader (failingRuntime (-17)) sampleState 1
        (sampleQuery 2) sampleViewState 2 0 [sampleView 1 2 3 4, sampleView 5 6 7 8] =
      Except.ok (failingRuntime (-17) 1 (sampleQuery 2) sampleViewState 2 0
        [sampleView 1 2 3 4, sampleView 5 6 7 8]) :=
  ⟨by decide,
    locateViews_failure_passthrough openxrHeader (failingRuntime (-17)) sampleState 1
      (sampleQuery 2) sampleViewState 2 0 [sampleView 1 2 3 4, sampleView 5 6 7 8]
      (by decide)⟩

/-- C3: when the query is not of the dual-eye stereo kind, the wrapper
completes and status, view state, view count and the whole view array are what
the recorded original produced, whatever the configured factors are. -/
theorem locateViews_other_kind_passthrough {F : Type} [Mul F] (H : OpenXRHeader)
    (next : PFN_xrLocateViews F) (st : LayerState F) (session : XrSession)
    (viewLocateInfo : XrViewLocateInfo) (viewState : XrViewState)
    (viewCapacityInput viewCountOutput : Nat) (views : List (XrView F))
    (hkind : viewLocateInfo.viewConfigurationType ≠
      H.XR_VIEW_CONFIGURATION_TYPE_PRIMARY_STEREO) :
    FOVModifier_xrLocateViews H next st session viewLocateInfo viewState
        viewCapacityInput viewCountOutput views =
      Except.ok (next session viewLocateInfo viewState viewCapacityInput viewCountOutput
        views) := by
  simp [FOVModifier_xrLocateViews, hkind]

/-- Witness for C3: a successful query of the mono kind (1). -/
theorem locateViews_other_kind_passthrough_witness :
    (sampleQuery 1).viewConfigurationType ≠
      openxrHeader.XR_VIEW_CONFIGURATION_TYPE_PRIMARY_STEREO ∧
    FOVModifier_xrLocateViews openxrHeader sampleRuntime sampleState 1 (sampleQuery 1)
        sampleViewState 2 0 [sampleView 0 0 0 0, sampleView 0 0 0 0] =
      Except.ok (sampleRuntime 1 (sampleQuery 1) sampleViewState 2 0
        [sampleView 0 0 0 0, sampleView 0 0 0 0]) :=
  ⟨by decide,
    locateViews_other_kind_passthrough openxrHeader sampleRuntime sampleState 1
      (sampleQuery 1) sampleViewState 2 0 [sampleView 0 0 0 0, sampleView 0 0 0 0]
      (by decide)⟩

/-- C4: the count-only stereo query of the two-call idiom (capacity 0, no view
array).  The runtime succeeds and leaves the empty array as it is; the wrapper
then executes line 199 and accesses `views[0]`, an entry outside the supplied
capacity, instead of returning what the runtime produced. -/
theorem locateViews_count_query_out_of_bounds :
    sampleRuntime 1 (sampleQuery 2) sampleViewState 0 0 [] =
      { result := openxrHeader.XR_SUCCESS,
        viewState := { type := 11, next := 0, viewStateFlags := 15 },
        viewCountOutput := 2, views := [] } ∧
    FOVModifier_xrLocateViews openxrHeader sampleRuntime sampleState 1 (sampleQuery 2)
        sampleViewState 0 0 [] = Except.error (Fault.outOfBounds 0 0) ∧
    FOVModifier_xrLocateViews openxrHeader sampleRuntime sampleState 1 (sampleQuery 2)
        sampleViewState 0 0 [] ≠
      Except.ok (sampleRuntime 1 (sampleQuery 2) sampleViewState 0 0 []) := by
  refine ⟨rfl, rfl, ?_⟩
  intro h
  cases h

/-- C5: on every call the wrapper either completes, and then the status, the
view state, the view count, the number of views, the type tag, chain pointer
and pose of every view, and every view with index 2 or higher are what the
recorded original produced (so only the angles of views 0 and 1 can differ);
or the original succeeded on a stereo query leaving fewer than two views, and
the wrapper stops at the first entry missing from the array. -/
theorem locateViews_frame {F : Type} [Mul F] (H : OpenXRHeader)
    (next : PFN_xrLocateViews F) (st : LayerState F) (session : XrSession)
    (viewLocateInfo : XrViewLocateInfo) (viewState : XrViewState)
    (viewCapacityInput viewCountOutput : Nat) (views : List (XrView F)) :
    (∃ out,
      FOVModifier_xrLocateViews H next st session viewLocateInfo viewState
        viewCapacityInput viewCountOutput views = Except.ok out ∧
      out.result = (next session viewLocateInfo viewState viewCapacityInput
        viewCountOutput views).result ∧
      out.viewState = (next session viewLocateInfo viewState viewCapacityInput
        viewCountOutput views).viewState ∧
      out.viewCountOutput = (next session viewLocateInfo viewState viewCapacityInput
        viewCountOutput views).viewCountOutput ∧
      out.views.length = (next session viewLocateInfo viewState viewCapacityInput
        viewCountOutput views).views.length ∧
      ∀ (i : Nat) (v : XrView F),
        (next session viewLocateInfo viewState viewCapacityInput viewCountOutput
          views).views[i]? = some v →
        ∃ w, out.views[i]? = some w ∧ w.type = v.type ∧ w.next = v.next ∧
          w.pose = v.pose ∧ (2 ≤ i → w = v)) ∨
    ((next session viewLocateInfo viewState viewCapacityInput viewCountOutput
        views).result = H.XR_SUCCESS ∧
      viewLocateInfo.viewConfigurationType = H.XR_VIEW_CONFIGURATION_TYPE_PRIMARY_STEREO ∧
      (next session viewLocateInfo viewState viewCapacityInput viewCountOutput
        views).views.length < 2 ∧
      FOVModifier_xrLocateViews H next st session viewLocateInfo viewState
        viewCapacityInput viewCountOutput views =
      Except.error (Fault.outOfBounds
        (next session viewLocateInfo viewState viewCapacityInput viewCountOutput
          views).views.length
        (next session viewLocateInfo viewState viewCapacityInput viewCountOutput
          views).views.length)) := by
  unfold FOVModifier_xrLocateViews
  generalize next session viewLocateInfo viewState viewCapacityInput viewCountOutput
    views = r
  by_cases hres : r.result = H.XR_SUCCESS
  · by_cases hkind : viewLocateInfo.viewConfigurationType =
        H.XR_VIEW_CONFIGURATION_TYPE_PRIMARY_STEREO
    · by_cases hlen : r.views.length < 2
      · right
        refine ⟨hres, hkind, hlen, ?_⟩
        simp [hres, hkind, applyFov_short st.config r.views hlen]
      · left
        obtain ⟨res, vs, cnt, vws⟩ := r
        match vws, hlen with
        | [], hlen => simp at hlen
        | [_], hlen => simp at hlen
        | a :: b :: rest, _ =>
          refine ⟨⟨res, vs, cnt, scaleLeft st.config a :: scaleRight st.config b :: rest⟩,
            ?_, rfl, rfl, rfl, by simp, ?_⟩
          · simp only at hres
            simp [hres, hkind, applyFov_two]
          · intro i v hv
            match i, hv with
            | 0, hv =>
              simp only [List.getElem?_cons_zero, Option.some.injEq] at hv
              subst hv
              exact ⟨scaleLeft st.config a, by simp, rfl, rfl, rfl,
                fun h => absurd h (by omega)⟩
            | 1, hv =>
              simp only [List.getElem?_cons_succ, List.getElem?_cons_zero,
                Option.some.injEq] at hv
              subst hv
              exact ⟨scaleRight st.config b, by simp, rfl, rfl, rfl,
                fun h => absurd h (by omega)⟩
            | j + 2, hv =>
              simp only [List.getElem?_cons_succ] at hv
              exact ⟨v, by simpa using hv, rfl, rfl, rfl, fun _ => rfl⟩
    · left
      exact ⟨r, by simp [hkind], rfl, rfl, rfl, rfl, fun i v hv => ⟨v, hv, rfl, rfl, rfl,
        fun _ => rfl⟩⟩
  · left
    exact ⟨r, by simp [hres], rfl, rfl, rfl, rfl, fun i v hv => ⟨v, hv, rfl, rfl, rfl,
      fun _ => rfl⟩⟩

/-! ## The entry-point resolver -/

/-- C6: for every name other than `xrLocateViews`, in every state (configuration
loaded or not), the resolver returns exactly the status and the function
reference the next layer's resolver returned for the same instance and name,
and leaves every global, the recorded original included, unchanged. -/
theorem getInstanceProcAddr_other_name {F : Type} (H : OpenXRHeader)
    (next : PFN_xrGetInstanceProcAddr) (st : LayerState F) (instance_ : XrInstance)
    (name : String) (function : FnPtr) (hname : name ≠ "xrLocateViews") :
    FOVModifier_xrGetInstanceProcAddr H next st instance_ name function =
      ((next instance_ name function).1, (next instance_ name function).2, st) := by
  unfold FOVModifier_xrGetInstanceProcAddr
  simp only [if_neg hname, ite_self]

/-- Witness for C6: `xrEndFrame` resolved with a loaded configuration. -/
theorem getInstanceProcAddr_other_name_witness :
    "xrEndFrame" ≠ "xrLocateViews" ∧
    FOVModifier_xrGetInstanceProcAddr openxrHeader sampleResolver sampleState 1
        "xrEndFrame" FnPtr.null =
      ((sampleResolver 1 "xrEndFrame" FnPtr.null).1,
        (sampleResolver 1 "xrEndFrame" FnPtr.null).2, sampleState) :=
  ⟨by decide,
    getInstanceProcAddr_other_name openxrHeader sampleResolver sampleState 1 "xrEndFrame"
      FnPtr.null (by decide)⟩

/-- C7: resolving `xrLocateViews`.  If the configuration is loaded and the next
layer's resolver succeeded, the resolver returns the wrapper's address and
records the delegated reference in `nextXrLocateViews`, changing no other
global; otherwise it returns the delegated reference and changes no global.
In both cases the status is the delegated status.  When the delegated
reference is not the wrapper's own address, the wrapper's address is returned
if and only if the configuration is loaded and the delegate succeeded. -/
theorem getInstanceProcAddr_watched {F : Type} (H : OpenXRHeader)
    (next : PFN_xrGetInstanceProcAddr) (st : LayerState F) (instance_ : XrInstance)
    (function : FnPtr) :
    (st.config.loaded = true ∧ (next instance_ "xrLocateViews" function).1 = H.XR_SUCCESS →
      FOVModifier_xrGetInstanceProcAddr H next st instance_ "xrLocateViews" function =
        ((next instance_ "xrLocateViews" function).1, FnPtr.addr_FOVModifier_xrLocateViews,
          { st with nextXrLocateViews := (next instance_ "xrLocateViews" function).2 })) ∧
    (¬(st.config.loaded = true ∧
        (next instance_ "xrLocateViews" function).1 = H.XR_SUCCESS) →
      FOVModifier_xrGetInstanceProcAddr H next st instance_ "xrLocateViews" function =
        ((next instance_ "xrLocateViews" function).1,
          (next instance_ "xrLocateViews" function).2, st)) ∧
    (FOVModifier_xrGetInstanceProcAddr H next st instance_ "xrLocateViews" function).1 =
      (next instance_ "xrLocateViews" function).1 ∧
    ((next instance_ "xrLocateViews" function).2 ≠ FnPtr.addr_FOVModifier_xrLocateViews →
      ((FOVModifier_xrGetInstanceProcAddr H next st instance_ "xrLocateViews"
          function).2.1 = FnPtr.addr_FOVModifier_xrLocateViews ↔
        (st.config.loaded = true ∧
          (next instance_ "xrLocateViews" function).1 = H.XR_SUCCESS))) := by
  unfold FOVModifier_xrGetInstanceProcAddr
  by_cases h : st.config.loaded = true ∧
      (next instance_ "xrLocateViews" function).1 = H.XR_SUCCESS
  · simp [h]
  · rw [if_neg h]
    exact ⟨fun h1 => absurd h1 h, fun _ => rfl, rfl, fun hne => ⟨fun h2 => absurd h2 hne,
      fun h1 => absurd h1 h⟩⟩

/-- Witness for C7: the watched name resolved with a loaded configuration and
a succeeding delegate. -/
theorem getInstanceProcAddr_watched_witness :
    FOVModifier_xrGetInstanceProcAddr openxrHeader sampleResolver sampleState 1
        "xrLocateViews" FnPtr.null =
      ((sampleResolver 1 "xrLocateViews" FnPtr.null).1,
        FnPtr.addr_FOVModifier_xrLocateViews,
        { sampleState with
          nextXrLocateViews := (sampleResolver 1 "xrLocateViews" FnPtr.null).2 }) :=
  (getInstanceProcAddr_watched openxrHeader sampleResolver sampleState 1 FnPtr.null).1
    ⟨rfl, by decide⟩

/-! ## The negotiation gate -/

/-- C8: whenever at least one of the six fields (type tag, structure version,
declared size of the loader-info structure; type tag, structure version,
declared size of the layer-request structure) differs from the compiled
constant, whatever the other fields, the filter and the globals are, the
negotiation returns the initialization-failed status. -/
theorem negotiate_rejects_struct_mismatch {F : Type} (H : OpenXRHeader)
    (moduleDir : Option String) (st : LayerState F) (li : XrNegotiateLoaderInfo)
    (apiLayerName : Option String) (rq : XrNegotiateApiLayerRequest)
    (h : li.structType ≠ H.XR_LOADER_INTERFACE_STRUCT_LOADER_INFO ∨
      li.structVersion ≠ H.XR_LOADER_INFO_STRUCT_VERSION ∨
      li.structSize ≠ H.sizeofXrNegotiateLoaderInfo ∨
      rq.structType ≠ H.XR_LOADER_INTERFACE_STRUCT_API_LAYER_REQUEST ∨
      rq.structVersion ≠ H.XR_API_LAYER_INFO_STRUCT_VERSION ∨
      rq.structSize ≠ H.sizeofXrNegotiateApiLayerRequest) :
    (FOVModifier_xrNegotiateLoaderApiLayerInterface H moduleDir st (some li) apiLayerName
      (some rq)).1 = H.XR_ERROR_INITIALIZATION_FAILED := by
  unfold FOVModifier_xrNegotiateLoaderApiLayerInterface
  simp only
  split_ifs with h1 h2
  · rfl
  · rfl
  · exact absurd (by tauto) h2

/-- Witness for C8: a loader-info structure declaring size 41 instead of 40. -/
theorem negotiate_rejects_struct_mismatch_witness :
    ({ sampleLoaderInfo 1 1 with structSize := 41 } : XrNegotiateLoaderInfo).structSize ≠
      openxrHeader.sizeofXrNegotiateLoaderInfo ∧
    (FOVModifier_xrNegotiateLoaderApiLayerInterface openxrHeader (some "C:/layers")
      initialState (some { sampleLoaderInfo 1 1 with structSize := 41 }) none
      (some sampleRequest)).1 = openxrHeader.XR_ERROR_INITIALIZATION_FAILED :=
  ⟨by decide,
    negotiate_rejects_struct_mismatch openxrHeader (some "C:/layers") initialState
      { sampleLoaderInfo 1 1 with structSize := 41 } none sampleRequest
      (Or.inr (Or.inr (Or.inl (by decide))))⟩

/-- C9, as stated, fails: a request that is accepted without a filter is
rejected when the filter is the zero-length string, because line 326 tests the
pointer for null and not the string for emptiness. -/
theorem negotiate_empty_string_filter_rejected :
    (FOVModifier_xrNegotiateLoaderApiLayerInterface openxrHeader (some "C:/layers")
      initialState (some (sampleLoaderInfo 1 1)) none (some sampleRequest)).1 =
        openxrHeader.XR_SUCCESS ∧
    (FOVModifier_xrNegotiateLoaderApiLayerInterface openxrHeader (some "C:/layers")
      initialState (some (sampleLoaderInfo 1 1)) (some "") (some sampleRequest)).1 =
        openxrHeader.XR_ERROR_INITIALIZATION_FAILED ∧
    (FOVModifier_xrNegotiateLoaderApiLayerInterface openxrHeader (some "C:/layers")
      initialState (some (sampleLoaderInfo 1 1)) (some "") (some sampleRequest)).1 ≠
        openxrHeader.XR_SUCCESS := by
  decide

/-- C9, amended: for every request that the negotiation accepts when no filter
is supplied (its structures and version ranges pass the checks), the
negotiation succeeds when the filter is absent (a null pointer) or exactly
equal to `LayerName`, and returns the initialization-failed status when a
filter is present and differs from `LayerName`, the zero-length string
included. -/
theorem negotiate_filter {F : Type} (H : OpenXRHeader) (moduleDir : Option String)
    (st : LayerState F) (loaderInfo : Option XrNegotiateLoaderInfo)
    (apiLayerName : Option String) (apiLayerRequest : Option XrNegotiateApiLayerRequest)
    (haccept : (FOVModifier_xrNegotiateLoaderApiLayerInterface H moduleDir st loaderInfo
      none apiLayerRequest).1 = H.XR_SUCCESS) :
    (apiLayerName = none ∨ apiLayerName = some LayerName →
      (FOVModifier_xrNegotiateLoaderApiLayerInterface H moduleDir st loaderInfo
        apiLayerName apiLayerRequest).1 = H.XR_SUCCESS) ∧
    (∀ n : String, apiLayerName = some n → n ≠ LayerName →
      (FOVModifier_xrNegotiateLoaderApiLayerInterface H moduleDir st loaderInfo
        apiLayerName apiLayerRequest).1 = H.XR_ERROR_INITIALIZATION_FAILED) := by
  constructor
  · rintro (h | h)
    · rw [h]
      exact haccept
    · rw [h]
      unfold FOVModifier_xrNegotiateLoaderApiLayerInterface at haccept ⊢
      simpa using haccept
  · intro n hn hne
    rw [hn]
    unfold FOVModifier_xrNegotiateLoaderApiLayerInterface
    simp [hne]

/-- Witness for C9 amended: the sample request, accepted without a filter, and
the filter `"XR_APILAYER_NOVENDOR_other"`. -/
theorem negotiate_filter_witness :
    (FOVModifier_xrNegotiateLoaderApiLayerInterface openxrHeader (some "C:/layers")
      initialState (some (sampleLoaderInfo 1 1)) none (some sampleRequest)).1 =
        openxrHeader.XR_SUCCESS ∧
    (FOVModifier_xrNegotiateLoaderApiLayerInterface openxrHeader (some "C:/layers")
      initialState (some (sampleLoaderInfo 1 1)) (some "XR_APILAYER_NOVENDOR_other")
      (some sampleRequest)).1 = openxrHeader.XR_ERROR_INITIALIZATION_FAILED :=
  ⟨by decide,
    (negotiate_filter openxrHeader (some "C:/layers") initialState
      (some (sampleLoaderInfo 1 1)) (some "XR_APILAYER_NOVENDOR_other") (some sampleRequest)
      (by decide)).2 "XR_APILAYER_NOVENDOR_other" rfl (by decide)⟩

/-- C10, as stated, fails: with no filter and every tag, version and size as
compiled, a host whose interface-version range is 1 to 2 includes the layer's
version 1, and its API range includes the layer's API version, yet line 342
rejects it. -/
theorem negotiate_higher_max_interface_rejected :
    (sampleLoaderInfo 1 2).structType = openxrHeader.XR_LOADER_INTERFACE_STRUCT_LOADER_INFO ∧
    (sampleLoaderInfo 1 2).structVersion = openxrHeader.XR_LOADER_INFO_STRUCT_VERSION ∧
    (sampleLoaderInfo 1 2).structSize = openxrHeader.sizeofXrNegotiateLoaderInfo ∧
    sampleRequest.structType = openxrHeader.XR_LOADER_INTERFACE_STRUCT_API_LAYER_REQUEST ∧
    sampleRequest.structVersion = openxrHeader.XR_API_LAYER_INFO_STRUCT_VERSION ∧
    sampleRequest.structSize = openxrHeader.sizeofXrNegotiateApiLayerRequest ∧
    (sampleLoaderInfo 1 2).minInterfaceVersion ≤
      openxrHeader.XR_CURRENT_LOADER_API_LAYER_VERSION ∧
    openxrHeader.XR_CURRENT_LOADER_API_LAYER_VERSION ≤
      (sampleLoaderInfo 1 2).maxInterfaceVersion ∧
    (sampleLoaderInfo 1 2).minApiVersion ≤ openxrHeader.XR_CURRENT_API_VERSION ∧
    openxrHeader.XR_CURRENT_API_VERSION ≤ (sampleLoaderInfo 1 2).maxApiVersion ∧
    (FOVModifier_xrNegotiateLoaderApiLayerInterface openxrHeader (some "C:/layers")
      initialState (some (sampleLoaderInfo 1 2)) none (some sampleRequest)).1 =
        openxrHeader.XR_ERROR_INITIALIZATION_FAILED ∧
    (FOVModifier_xrNegotiateLoaderApiLayerInterface openxrHeader (some "C:/layers")
      initialState (some (sampleLoaderInfo 1 2)) none (some sampleRequest)).1 ≠
        openxrHeader.XR_SUCCESS := by
  decide

/-- C10, amended: with an acceptable filter (absent or equal to `LayerName`)
and all six type tags, versions and sizes as compiled, the negotiation returns
success if and only if the host's minimum interface version is at most the
layer's interface version, the host's maximum interface version is equal to
it, and the layer's API version lies within the host's API range; in every
other case it returns the initialization-failed status. -/
theorem negotiate_versions {F : Type} (H : OpenXRHeader) (moduleDir : Option String)
    (st : LayerState F) (li : XrNegotiateLoaderInfo) (apiLayerName : Option String)
    (rq : XrNegotiateApiLayerRequest)
    (hcodes : H.XR_SUCCESS ≠ H.XR_ERROR_INITIALIZATION_FAILED)
    (hfilter : apiLayerName = none ∨ apiLayerName = some LayerName)
    (hlt : li.structType = H.XR_LOADER_INTERFACE_STRUCT_LOADER_INFO)
    (hlv : li.structVersion = H.XR_LOADER_INFO_STRUCT_VERSION)
    (hls : li.structSize = H.sizeofXrNegotiateLoaderInfo)
    (hrt : rq.structType = H.XR_LOADER_INTERFACE_STRUCT_API_LAYER_REQUEST)
    (hrv : rq.structVersion = H.XR_API_LAYER_INFO_STRUCT_VERSION)
    (hrs : rq.structSize = H.sizeofXrNegotiateApiLayerRequest) :
    ((FOVModifier_xrNegotiateLoaderApiLayerInterface H moduleDir st (some li) apiLayerName
        (some rq)).1 = H.XR_SUCCESS ↔
      (li.minInterfaceVersion ≤ H.XR_CURRENT_LOADER_API_LAYER_VERSION ∧
        li.maxInterfaceVersion = H.XR_CURRENT_LOADER_API_LAYER_VERSION ∧
        li.minApiVersion ≤ H.XR_CURRENT_API_VERSION ∧
        H.XR_CURRENT_API_VERSION ≤ li.maxApiVersion)) ∧
    ((FOVModifier_xrNegotiateLoaderApiLayerInterface H moduleDir st (some li) apiLayerName
        (some rq)).1 = H.XR_SUCCESS ∨
      (FOVModifier_xrNegotiateLoaderApiLayerInterface H moduleDir st (some li) apiLayerName
        (some rq)).1 = H.XR_ERROR_INITIALIZATION_FAILED) := by
  have hname : ¬(apiLayerName.isSome = true ∧ apiLayerName ≠ some LayerName) := by
    rcases hfilter with h | h <;> simp [h]
  unfold FOVModifier_xrNegotiateLoaderApiLayerInterface
  simp only [if_neg hname]
  split_ifs with h2
  · refine ⟨⟨fun h => absurd h.symm hcodes, fun h => ?_⟩, Or.inr rfl⟩
    exfalso
    rcases h2 with h2 | h2 | h2 | h2 | h2 | h2 | h2 | h2 | h2 | h2 | h2
    · exact h2 hlt
    · exact h2 hlv
    · exact h2 hls
    · exact h2 hrt
    · exact h2 hrv
    · exact h2 hrs
    · omega
    · omega
    · omega
    · omega
    · omega
  · refine ⟨⟨fun _ => ?_, fun _ => rfl⟩, Or.inl rfl⟩
    simp only [not_or] at h2
    omega

/-- Witness for C10 amended: the host range 0 to 1 with the matching filter. -/
theorem negotiate_versions_witness :
    openxrHeader.XR_SUCCESS ≠ openxrHeader.XR_ERROR_INITIALIZATION_FAILED ∧
    ((FOVModifier_xrNegotiateLoaderApiLayerInterface openxrHeader (some "C:/layers")
        initialState (some (sampleLoaderInfo 0 1)) (some LayerName)
        (some sampleRequest)).1 = openxrHeader.XR_SUCCESS ↔
      ((sampleLoaderInfo 0 1).minInterfaceVersion ≤
          openxrHeader.XR_CURRENT_LOADER_API_LAYER_VERSION ∧
        (sampleLoaderInfo 0 1).maxInterfaceVersion =
          openxrHeader.XR_CURRENT_LOADER_API_LAYER_VERSION ∧
        (sampleLoaderInfo 0 1).minApiVersion ≤ openxrHeader.XR_CURRENT_API_VERSION ∧
        openxrHeader.XR_CURRENT_API_VERSION ≤ (sampleLoaderInfo 0 1).maxApiVersion)) :=
  ⟨by decide,
    (negotiate_versions openxrHeader (some "C:/layers") initialState (sampleLoaderInfo 0 1)
      (some LayerName) sampleRequest (by decide) (Or.inr rfl) rfl rfl rfl rfl rfl rfl).1⟩

/-- C11: the negotiation writes the response exactly when it succeeds.  On
success the response holds the layer's interface version and API version and
the addresses of the resolver and of the instance-creation entry point, with
type tag, structure version and size as supplied; whenever the status is not
success the response is as it was. -/
theorem negotiate_response {F : Type} (H : OpenXRHeader) (moduleDir : Option String)
    (st : LayerState F) (loaderInfo : Option XrNegotiateLoaderInfo)
    (apiLayerName : Option String) (apiLayerRequest : Option XrNegotiateApiLayerRequest)
    (hcodes : H.XR_SUCCESS ≠ H.XR_ERROR_INITIALIZATION_FAILED) :
    ((FOVModifier_xrNegotiateLoaderApiLayerInterface H moduleDir st loaderInfo apiLayerName
        apiLayerRequest).1 = H.XR_SUCCESS →
      ∃ rq, apiLayerRequest = some rq ∧
        (FOVModifier_xrNegotiateLoaderApiLayerInterface H moduleDir st loaderInfo
          apiLayerName apiLayerRequest).2.1 =
          some { structType := rq.structType, structVersion := rq.structVersion,
                 structSize := rq.structSize,
                 layerInterfaceVersion := H.XR_CURRENT_LOADER_API_LAYER_VERSION,
                 layerApiVersion := H.XR_CURRENT_API_VERSION,
                 getInstanceProcAddr := FnPtr.addr_FOVModifier_xrGetInstanceProcAddr,
                 createApiLayerInstance :=
                   FnPtr.addr_FOVModifier_xrCreateApiLayerInstance }) ∧
    ((FOVModifier_xrNegotiateLoaderApiLayerInterface H moduleDir st loaderInfo apiLayerName
        apiLayerRequest).1 ≠ H.XR_SUCCESS →
      (FOVModifier_xrNegotiateLoaderApiLayerInterface H moduleDir st loaderInfo apiLayerName
        apiLayerRequest).2.1 = apiLayerRequest) := by
  unfold FOVModifier_xrNegotiateLoaderApiLayerInterface
  simp only
  split_ifs with h1
  · exact ⟨fun h => absurd h.symm hcodes, fun _ => rfl⟩
  · match loaderInfo, apiLayerRequest with
    | some li, some rq =>
      simp only
      split_ifs with h2
      · exact ⟨fun h => absurd h.symm hcodes, fun _ => rfl⟩
      · exact ⟨fun _ => ⟨rq, rfl, rfl⟩, fun h => absurd rfl h⟩
    | none, _ => exact ⟨fun h => absurd h.symm hcodes, fun _ => rfl⟩
    | some _, none => exact ⟨fun h => absurd h.symm hcodes, fun _ => rfl⟩

/-- Witness for C11: the sample request, accepted, and its response. -/
theorem negotiate_response_witness :
    openxrHeader.XR_SUCCESS ≠ openxrHeader.XR_ERROR_INITIALIZATION_FAILED ∧
    ∃ rq, some sampleRequest = some rq ∧
      (FOVModifier_xrNegotiateLoaderApiLayerInterface openxrHeader (some "C:/layers")
        initialState (some (sampleLoaderInfo 1 1)) none (some sampleRequest)).2.1 =
        some { structType := rq.structType, structVersion := rq.structVersion,
               structSize := rq.structSize,
               layerInterfaceVersion := openxrHeader.XR_CURRENT_LOADER_API_LAYER_VERSION,
               layerApiVersion := openxrHeader.XR_CURRENT_API_VERSION,
               getInstanceProcAddr := FnPtr.addr_FOVModifier_xrGetInstanceProcAddr,
               createApiLayerInstance := FnPtr.addr_FOVModifier_xrCreateApiLayerInstance } :=
  ⟨by decide,
    (negotiate_response openxrHeader (some "C:/layers") initialState
      (some (sampleLoaderInfo 1 1)) none (some sampleRequest) (by decide)).1 (by decide)⟩

/-! ## Instance creation -/

/-- C12: when the layer-creation information is missing, or the chain
information is missing, or one of the comparisons of lines 252-261 holds (a
type tag, version or size differs, the embedded layer name is not `LayerName`,
or a next delegate is null), the creation returns the initialization-failed
status and leaves `*instance`, every global and the state below the layer as
they were, whatever the next creation delegate would do. -/
theorem createInstance_validation_failure {F W : Type} [One F] (H : OpenXRHeader)
    (stof : String → Option F) (fs : FileSystem) (nextCreate : PFN_xrCreateApiLayerInstance W)
    (st : LayerState F) (instanceCreateInfo : XrInstanceCreateInfo)
    (apiLayerInfo : Option XrApiLayerCreateInfo) (instance_ : XrInstance) (w : W)
    (h : ∀ info nextInfo, apiLayerInfo = some info → info.nextInfo = some nextInfo →
      ¬passesValidation H info nextInfo) :
    FOVModifier_xrCreateApiLayerInstance H stof fs nextCreate st instanceCreateInfo
        apiLayerInfo instance_ w =
      (H.XR_ERROR_INITIALIZATION_FAILED, instance_, st, w) := by
  unfold FOVModifier_xrCreateApiLayerInstance
  match apiLayerInfo, h with
  | none, _ => rfl
  | some info, h =>
    simp only
    by_cases h1 : info.structType ≠ H.XR_LOADER_INTERFACE_STRUCT_API_LAYER_CREATE_INFO ∨
        info.structVersion ≠ H.XR_API_LAYER_CREATE_INFO_STRUCT_VERSION ∨
        info.structSize ≠ H.sizeofXrApiLayerCreateInfo
    · rw [if_pos h1]
    · rw [if_neg h1]
      match hn : info.nextInfo with
      | none => rfl
      | some nextInfo =>
        simp only
        by_cases h2 : nextInfo.structType ≠ H.XR_LOADER_INTERFACE_STRUCT_API_LAYER_NEXT_INFO ∨
            nextInfo.structVersion ≠ H.XR_API_LAYER_NEXT_INFO_STRUCT_VERSION ∨
            nextInfo.structSize ≠ H.sizeofXrApiLayerNextInfo ∨
            nextInfo.layerName ≠ LayerName ∨
            nextInfo.nextGetInstanceProcAddr = FnPtr.null ∨
            nextInfo.nextCreateApiLayerInstance = FnPtr.null
        · rw [if_pos h2]
        · exfalso
          apply h info nextInfo rfl hn
          simp only [not_or, not_not] at h1 h2
          exact ⟨h1.1, h1.2.1, h1.2.2, h2.1, h2.2.1, h2.2.2.1, h2.2.2.2.1, h2.2.2.2.2.1,
            h2.2.2.2.2.2⟩

/-- Witness for C12: chain information whose next resolver is null; the next
creation delegate is not invoked (the count below the layer stays 0). -/
theorem createInstance_validation_failure_witness :
    FOVModifier_xrCreateApiLayerInstance openxrHeader sampleStof sampleFiles (sampleCreate 0)
        sampleState (sampleCreateInfo "HelloXR" "UnrealEngine")
        (some (sampleLayerInfo
          (some { sampleNextInfo with nextGetInstanceProcAddr := FnPtr.null }))) 5 0 =
      (openxrHeader.XR_ERROR_INITIALIZATION_FAILED, 5, sampleState, 0) :=
  createInstance_validation_failure openxrHeader sampleStof sampleFiles (sampleCreate 0)
    sampleState (sampleCreateInfo "HelloXR" "UnrealEngine")
    (some (sampleLayerInfo
      (some { sampleNextInfo with nextGetInstanceProcAddr := FnPtr.null }))) 5 0
    (by
      intro info nextInfo h1 h2
      cases h1
      cases h2
      decide)

/-- After validation the creation stores the next resolver, invokes the next
creation delegate and, on success, resets and loads the configuration. -/
theorem createInstance_of_valid {F W : Type} [One F] (H : OpenXRHeader)
    (stof : String → Option F) (fs : FileSystem) (nextCreate : PFN_xrCreateApiLayerInstance W)
    (st : LayerState F) (instanceCreateInfo : XrInstanceCreateInfo)
    (info : XrApiLayerCreateInfo) (nextInfo : XrApiLayerNextInfo) (instance_ : XrInstance)
    (w : W) (hn : info.nextInfo = some nextInfo) (hv : passesValidation H info nextInfo) :
    FOVModifier_xrCreateApiLayerInstance H stof fs nextCreate st instanceCreateInfo
        (some info) instance_ w =
      if (nextCreate instanceCreateInfo info instance_ w).1 = H.XR_SUCCESS then
        if (LoadConfiguration stof fs
            { st with nextXrGetInstanceProcAddr := nextInfo.nextGetInstanceProcAddr,
                      config := st.config.Reset }
            instanceCreateInfo.applicationInfo.applicationName).1 = false then
          ((nextCreate instanceCreateInfo info instance_ w).1,
            (nextCreate instanceCreateInfo info instance_ w).2.1,
            (LoadConfiguration stof fs
              (LoadConfiguration stof fs
                { st with nextXrGetInstanceProcAddr := nextInfo.nextGetInstanceProcAddr,
                          config := st.config.Reset }
                instanceCreateInfo.applicationInfo.applicationName).2
              instanceCreateInfo.applicationInfo.engineName).2,
            (nextCreate instanceCreateInfo info instance_ w).2.2)
        else
          ((nextCreate instanceCreateInfo info instance_ w).1,
            (nextCreate instanceCreateInfo info instance_ w).2.1,
            (LoadConfiguration stof fs
              { st with nextXrGetInstanceProcAddr := nextInfo.nextGetInstanceProcAddr,
                        config := st.config.Reset }
              instanceCreateInfo.applicationInfo.applicationName).2,
            (nextCreate instanceCreateInfo info instance_ w).2.2)
      else
        ((nextCreate instanceCreateInfo info instance_ w).1,
          (nextCreate instanceCreateInfo info instance_ w).2.1,
          { st with nextXrGetInstanceProcAddr := nextInfo.nextGetInstanceProcAddr },
          (nextCreate instanceCreateInfo info instance_ w).2.2) := by
  obtain ⟨v1, v2, v3, v4, v5, v6, v7, v8, v9⟩ := hv
  have h1 : ¬(info.structType ≠ H.XR_LOADER_INTERFACE_STRUCT_API_LAYER_CREATE_INFO ∨
      info.structVersion ≠ H.XR_API_LAYER_CREATE_INFO_STRUCT_VERSION ∨
      info.structSize ≠ H.sizeofXrApiLayerCreateInfo) := by
    simp [v1, v2, v3]
  have h2 : ¬(nextInfo.structType ≠ H.XR_LOADER_INTERFACE_STRUCT_API_LAYER_NEXT_INFO ∨
      nextInfo.structVersion ≠ H.XR_API_LAYER_NEXT_INFO_STRUCT_VERSION ∨
      nextInfo.structSize ≠ H.sizeofXrApiLayerNextInfo ∨
      nextInfo.layerName ≠ LayerName ∨
      nextInfo.nextGetInstanceProcAddr = FnPtr.null ∨
      nextInfo.nextCreateApiLayerInstance = FnPtr.null) := by
    simp [v4, v5, v6, v7, v8, v9]
  unfold FOVModifier_xrCreateApiLayerInstance
  simp only [if_neg h1, hn, if_neg h2]

/-- The configuration after a load over `st`: the file of the identity parsed
over the configuration of `st` when it opens, and the configuration of `st`
otherwise. -/
theorem loadConfiguration_config {F : Type} (stof : String → Option F) (fs : FileSystem)
    (st : LayerState F) (configName : String) :
    LoadConfiguration stof fs st configName =
      match configFile fs st.dllHome configName with
      | some lines => (true, { st with config := parseFile stof st.config lines })
      | none => (false, st) := by
  unfold LoadConfiguration configFile parseFile
  by_cases h : configName = ""
  · simp [h]
  · simp only [if_neg h]

/-- C13: for a creation request that passes validation and whose chained
creation reports success, whatever the configuration held before, the
configuration afterwards is: the application-named file parsed over the
defaults (all eight factors 1.0) when the application name is non-empty and
its file opens; otherwise the engine-named file parsed over the defaults when
the engine name is non-empty and its file opens; otherwise the defaults, not
loaded.  The right-hand side does not mention the prior configuration. -/
theorem createInstance_config_resolution {F W : Type} [One F] (H : OpenXRHeader)
    (stof : String → Option F) (fs : FileSystem) (nextCreate : PFN_xrCreateApiLayerInstance W)
    (st : LayerState F) (instanceCreateInfo : XrInstanceCreateInfo)
    (info : XrApiLayerCreateInfo) (nextInfo : XrApiLayerNextInfo) (instance_ : XrInstance)
    (w : W) (hn : info.nextInfo = some nextInfo) (hv : passesValidation H info nextInfo)
    (hs : (nextCreate instanceCreateInfo info instance_ w).1 = H.XR_SUCCESS) :
    (FOVModifier_xrCreateApiLayerInstance H stof fs nextCreate st instanceCreateInfo
        (some info) instance_ w).2.2.1.config =
      match configFile fs st.dllHome instanceCreateInfo.applicationInfo.applicationName with
      | some lines => parseFile stof defaultConfig lines
      | none =>
        match configFile fs st.dllHome instanceCreateInfo.applicationInfo.engineName with
        | some lines => parseFile stof defaultConfig lines
        | none => defaultConfig := by
  rw [createInstance_of_valid H stof fs nextCreate st instanceCreateInfo info nextInfo
    instance_ w hn hv, if_pos hs]
  simp only [loadConfiguration_config]
  cases configFile fs st.dllHome instanceCreateInfo.applicationInfo.applicationName with
  | some lines => simp [Config.Reset, defaultConfig]
  | none =>
    cases configFile fs st.dllHome instanceCreateInfo.applicationInfo.engineName with
    | some lines => simp [Config.Reset, defaultConfig]
    | none => simp [Config.Reset, defaultConfig]

/-- Witness for C13: the application `HelloXR` has a file; the prior
configuration `sampleConfig` leaves no trace. -/
theorem createInstance_config_resolution_witness :
    (sampleLayerInfo (some sampleNextInfo)).nextInfo = some sampleNextInfo ∧
    passesValidation openxrHeader (sampleLayerInfo (some sampleNextInfo)) sampleNextInfo ∧
    (sampleCreate 0 (sampleCreateInfo "HelloXR" "UnrealEngine")
      (sampleLayerInfo (some sampleNextInfo)) 0 0).1 = openxrHeader.XR_SUCCESS ∧
    (FOVModifier_xrCreateApiLayerInstance openxrHeader sampleStof sampleFiles (sampleCreate 0)
        sampleState (sampleCreateInfo "HelloXR" "UnrealEngine")
        (some (sampleLayerInfo (some sampleNextInfo))) 0 0).2.2.1.config =
      match configFile sampleFiles sampleState.dllHome
          (sampleCreateInfo "HelloXR" "UnrealEngine").applicationInfo.applicationName with
      | some lines => parseFile sampleStof defaultConfig lines
      | none =>
        match configFile sampleFiles sampleState.dllHome
            (sampleCreateInfo "HelloXR" "UnrealEngine").applicationInfo.engineName with
        | some lines => parseFile sampleStof defaultConfig lines
        | none => defaultConfig :=
  ⟨rfl, by decide, by decide,
    createInstance_config_resolution openxrHeader sampleStof sampleFiles (sampleCreate 0)
      sampleState (sampleCreateInfo "HelloXR" "UnrealEngine")
      (sampleLayerInfo (some sampleNextInfo)) sampleNextInfo 0 0 rfl (by decide)
      (by decide)⟩

/-- C14: for a creation request that passes validation, the status returned is
the status the next creation delegate returned, and when that status is not
success the configuration (all eight factors and the loaded flag) is as it was
before the call. -/
theorem createInstance_status {F W : Type} [One F] (H : OpenXRHeader)
    (stof : String → Option F) (fs : FileSystem) (nextCreate : PFN_xrCreateApiLayerInstance W)
    (st : LayerState F) (instanceCreateInfo : XrInstanceCreateInfo)
    (info : XrApiLayerCreateInfo) (nextInfo : XrApiLayerNextInfo) (instance_ : XrInstance)
    (w : W) (hn : info.nextInfo = some nextInfo) (hv : passesValidation H info nextInfo) :
    (FOVModifier_xrCreateApiLayerInstance H stof fs nextCreate st instanceCreateInfo
        (some info) instance_ w).1 = (nextCreate instanceCreateInfo info instance_ w).1 ∧
    ((nextCreate instanceCreateInfo info instance_ w).1 ≠ H.XR_SUCCESS →
      (FOVModifier_xrCreateApiLayerInstance H stof fs nextCreate st instanceCreateInfo
        (some info) instance_ w).2.2.1.config = st.config) := by
  rw [createInstance_of_valid H stof fs nextCreate st instanceCreateInfo info nextInfo
    instance_ w hn hv]
  constructor
  · split_ifs <;> rfl
  · intro hne
    rw [if_neg hne]

/-- Witness for C14: the next creation fails with `XR_ERROR_RUNTIME_FAILURE`
(-2). -/
theorem createInstance_status_witness :
    (sampleLayerInfo (some sampleNextInfo)).nextInfo = some sampleNextInfo ∧
    passesValidation openxrHeader (sampleLayerInfo (some sampleNextInfo)) sampleNextInfo ∧
    (sampleCreate (-2) (sampleCreateInfo "HelloXR" "UnrealEngine")
      (sampleLayerInfo (some sampleNextInfo)) 0 0).1 ≠ openxrHeader.XR_SUCCESS ∧
    (FOVModifier_xrCreateApiLayerInstance openxrHeader sampleStof sampleFiles (sampleCreate (-2))
        sampleState (sampleCreateInfo "HelloXR" "UnrealEngine")
        (some (sampleLayerInfo (some sampleNextInfo))) 0 0).1 =
      (sampleCreate (-2) (sampleCreateInfo "HelloXR" "UnrealEngine")
        (sampleLayerInfo (some sampleNextInfo)) 0 0).1 ∧
    (FOVModifier_xrCreateApiLayerInstance openxrHeader sampleStof sampleFiles (sampleCreate (-2))
        sampleState (sampleCreateInfo "HelloXR" "UnrealEngine")
        (some (sampleLayerInfo (some sampleNextInfo))) 0 0).2.2.1.config =
      sampleState.config :=
  ⟨rfl, by decide, by decide,
    (createInstance_status openxrHeader sampleStof sampleFiles (sampleCreate (-2)) sampleState
      (sampleCreateInfo "HelloXR" "UnrealEngine") (sampleLayerInfo (some sampleNextInfo))
      sampleNextInfo 0 0 rfl (by decide)).1,
    (createInstance_status openxrHeader sampleStof sampleFiles (sampleCreate (-2)) sampleState
      (sampleCreateInfo "HelloXR" "UnrealEngine") (sampleLayerInfo (some sampleNextInfo))
      sampleNextInfo 0 0 rfl (by decide)).2 (by decide)⟩

/-! ## The configuration store -/

/-- C15: `LoadConfiguration` returns true if and only if the identity is
non-empty and its file `<identity>.cfg` in `dllHome` opens.  When it returns
true the loaded flag is true afterwards, whatever the lines of the file are;
when it returns false every global is as it was; and for the empty identity
the result is the same for every file system, so no file is looked up. -/
theorem loadConfiguration_result {F : Type} (stof : String → Option F) (fs : FileSystem)
    (st : LayerState F) (configName : String) :
    ((LoadConfiguration stof fs st configName).1 = true ↔
      (configName ≠ "" ∧ (fs st.dllHome (configName ++ ".cfg")).isSome = true)) ∧
    ((LoadConfiguration stof fs st configName).1 = true →
      (LoadConfiguration stof fs st configName).2.config.loaded = true) ∧
    ((LoadConfiguration stof fs st configName).1 = false →
      (LoadConfiguration stof fs st configName).2 = st) ∧
    (∀ fs2 : FileSystem, LoadConfiguration stof fs2 st "" = (false, st)) := by
  refine ⟨?_, ?_, ?_, fun fs2 => by simp [LoadConfiguration]⟩
  all_goals
    unfold LoadConfiguration
    by_cases h : configName = ""
    · simp [h]
    · simp only [if_neg h]
      cases fs st.dllHome (configName ++ ".cfg") <;> simp [h]

/-- Witness for C15: a file without any line that sets a key still yields the
loaded flag. -/
theorem loadConfiguration_result_witness :
    (LoadConfiguration sampleStof (fun _ _ => some ["# no key here", ""]) negotiatedState
      "HelloXR").2.config.loaded = true :=
  (loadConfiguration_result sampleStof (fun _ _ => some ["# no key here", ""])
    negotiatedState "HelloXR").2.1 (by decide)

/-- A line made of a key, `=` and a text that parses sets that key. -/
theorem assignment_key_line {F : Type} (stof : String → Option F) (k : Key) (vtext : String)
    (v : F) (h : stof vtext = some v) :
    assignment stof (k.name ++ "=" ++ vtext) = some (k, v) := by
  cases k <;>
    simp [assignment, find, substr, substrFrom, Key.name, keyOfName, String.data_append,
      List.indexOf_cons, h]

/-- The loop body agrees with what the line sets. -/
theorem parseLine_factor {F : Type} (stof : String → Option F) (config : Config F)
    (line : String) (k : Key) :
    (parseLine stof config line).factor k =
      match assignment stof line with
      | some (k1, value) => if k1 = k then value else config.factor k
      | none => config.factor k := by
  unfold parseLine assignment keyOfName
  cases find line '=' with
  | none => rfl
  | some offset =>
    simp only
    cases stof (substrFrom line (offset + 1)) with
    | none => split <;> simp_all
    | some value =>
      simp only
      split_ifs <;> cases k <;> simp [Config.factor]

/-- The loop body never assigns the loaded flag. -/
theorem parseLine_loaded {F : Type} (stof : String → Option F) (config : Config F)
    (line : String) : (parseLine stof config line).loaded = config.loaded := by
  unfold parseLine
  cases find line '=' with
  | none => rfl
  | some offset =>
    simp only
    cases stof (substrFrom line (offset + 1)) with
    | none => rfl
    | some value =>
      simp only
      split_ifs <;> rfl

/-- The loop over the lines gives each key the value of the last line that
sets it, or leaves it. -/
theorem foldl_parseLine_factor {F : Type} (stof : String → Option F) (lines : List String)
    (config : Config F) (k : Key) :
    (lines.foldl (parseLine stof) config).factor k =
      (lastAssigned stof lines k).getD (config.factor k) := by
  induction lines generalizing config with
  | nil => simp [lastAssigned]
  | cons line rest ih =>
    rw [List.foldl_cons, ih, parseLine_factor]
    unfold lastAssigned
    cases hline : assignment stof line with
    | none => simp [List.filterMap_cons, hline]
    | some kv =>
      obtain ⟨k1, value⟩ := kv
      by_cases hk : k1 = k
      · simp [List.filterMap_cons, hline, hk, List.getLast?_cons]
      · simp [List.filterMap_cons, hline, hk]

/-- C16: for every configuration file and each of the eight keys, the field of
that key after loading is the value on the last line of the file that sets the
key, or the value of the field before loading when no line sets it. -/
theorem loadConfiguration_last_write_wins {F : Type} (stof : String → Option F)
    (fs : FileSystem) (st : LayerState F) (configName : String) (lines : List String)
    (k : Key) (hname : configName ≠ "")
    (hfile : fs st.dllHome (configName ++ ".cfg") = some lines) :
    (LoadConfiguration stof fs st configName).2.config.factor k =
      (lastAssigned stof lines k).getD (st.config.factor k) := by
  unfold LoadConfiguration
  simp only [if_neg hname, hfile]
  rw [← foldl_parseLine_factor]
  cases k <;> rfl

/-- Witness for C16: a file with `right.down=0.5` followed by `right.down=0.9`
yields 0.9. -/
theorem loadConfiguration_last_write_wins_witness :
    (LoadConfiguration sampleStof (fun _ _ => some ["right.down=0.5", "right.down=0.9"])
      negotiatedState "HelloXR").2.config.rightAngleDown = 9 / 10 :=
  (loadConfiguration_last_write_wins sampleStof
    (fun _ _ => some ["right.down=0.5", "right.down=0.9"]) negotiatedState "HelloXR"
    ["right.down=0.5", "right.down=0.9"] Key.rightDown (by decide) rfl).trans
    (by with_unfolding_all decide)

/-- C17: a line that contains no `=`, or whose left-hand substring is none of
the eight keys, or whose right-hand substring fails to parse, changes no field
and does not stop the loop: loading a file that contains the line gives the
same flag and the same globals as loading the file without it. -/
theorem loadConfiguration_skips_malformed_line {F : Type} (stof : String → Option F)
    (fs1 fs2 : FileSystem) (st : LayerState F) (configName : String)
    (before after : List String) (line : String)
    (hbad : ∀ offset, find line '=' = some offset →
      (∀ k : Key, substr line 0 offset ≠ k.name) ∨
        stof (substrFrom line (offset + 1)) = none)
    (hfile1 : fs1 st.dllHome (configName ++ ".cfg") = some (before ++ line :: after))
    (hfile2 : fs2 st.dllHome (configName ++ ".cfg") = some (before ++ after)) :
    LoadConfiguration stof fs1 st configName = LoadConfiguration stof fs2 st configName := by
  have hskip : ∀ config : Config F, parseLine stof config line = config := by
    intro config
    unfold parseLine
    cases hfind : find line '=' with
    | none => rfl
    | some offset =>
      simp only
      rcases hbad offset hfind with hkey | hparse
      · have h1 := hkey Key.leftUp
        have h2 := hkey Key.leftDown
        have h3 := hkey Key.leftLeft
        have h4 := hkey Key.leftRight
        have h5 := hkey Key.rightUp
        have h6 := hkey Key.rightDown
        have h7 := hkey Key.rightLeft
        have h8 := hkey Key.rightRight
        simp only [Key.name] at h1 h2 h3 h4 h5 h6 h7 h8
        cases stof (substrFrom line (offset + 1)) with
        | none => rfl
        | some value => simp only [if_neg h1, if_neg h2, if_neg h3, if_neg h4, if_neg h5,
            if_neg h6, if_neg h7, if_neg h8]
      · rw [hparse]
  unfold LoadConfiguration
  by_cases hname : configName = ""
  · simp [hname]
  · simp only [if_neg hname, hfile1, hfile2, List.foldl_append, List.foldl_cons, hskip]

/-- Witness for C17: the file of `HelloXR` with and without its first line
`nonsense_no_equals`. -/
theorem loadConfiguration_skips_malformed_line_witness :
    LoadConfiguration sampleStof
        (fun _ _ => some ([] ++ "nonsense_no_equals" ::
          ["left.up=notanumber", "right.down=0.5", "left.up=0.8"]))
        negotiatedState "HelloXR" =
      LoadConfiguration sampleStof
        (fun _ _ => some ([] ++ ["left.up=notanumber", "right.down=0.5", "left.up=0.8"]))
        negotiatedState "HelloXR" :=
  loadConfiguration_skips_malformed_line sampleStof _ _ negotiatedState "HelloXR" []
    ["left.up=notanumber", "right.down=0.5", "left.up=0.8"] "nonsense_no_equals"
    (by
      intro offset h
      have hnone : find "nonsense_no_equals" '=' = none := by decide
      rw [hnone] at h
      cases h)
    rfl rfl

/-- A successful stereo call on an array of at least two views completes with
the first view scaled by the left-eye factors and the second by the right-eye
factors. -/
theorem locateViews_stereo_ok {F : Type} [Mul F] (H : OpenXRHeader)
    (next : PFN_xrLocateViews F) (st : LayerState F) (session : XrSession)
    (viewLocateInfo : XrViewLocateInfo) (viewState : XrViewState)
    (viewCapacityInput viewCountOutput : Nat) (views : List (XrView F)) (o0 o1 : XrView F)
    (hres : (next session viewLocateInfo viewState viewCapacityInput viewCountOutput
      views).result = H.XR_SUCCESS)
    (hkind : viewLocateInfo.viewConfigurationType =
      H.XR_VIEW_CONFIGURATION_TYPE_PRIMARY_STEREO)
    (h0 : (next session viewLocateInfo viewState viewCapacityInput viewCountOutput
      views).views[0]? = some o0)
    (h1 : (next session viewLocateInfo viewState viewCapacityInput viewCountOutput
      views).views[1]? = some o1) :
    ∃ out,
      FOVModifier_xrLocateViews H next st session viewLocateInfo viewState
        viewCapacityInput viewCountOutput views = Except.ok out ∧
      out.views[0]? = some (scaleLeft st.config o0) ∧
      out.views[1]? = some (scaleRight st.config o1) := by
  unfold FOVModifier_xrLocateViews
  generalize next session viewLocateInfo viewState viewCapacityInput viewCountOutput
    views = r at hres h0 h1
  obtain ⟨res, vs, cnt, vws⟩ := r
  match vws, h0, h1 with
  | a :: b :: rest, h0, h1 =>
    simp only [List.getElem?_cons_zero, List.getElem?_cons_succ, Option.some.injEq] at h0 h1
    subst h0
    subst h1
    simp only at hres
    refine ⟨⟨res, vs, cnt, scaleLeft st.config a :: scaleRight st.config b :: rest⟩, ?_,
      by simp, by simp⟩
    simp [hres, hkind, applyFov_two]

/-- The angle a key names, after the eight assignments, is the angle before
multiplied by the factor of that key. -/
theorem scaled_angle {F : Type} [Mul F] (config : Config F) (view0 view1 : XrView F)
    (k : Key) :
    k.angle (k.eye (scaleLeft config view0) (scaleRight config view1)).fov =
      k.angle (k.eye view0 view1).fov * config.factor k := by
  cases k <;> rfl

/-- C18: for each key `k` and every value `v` (the parse of the text to the
right of `=`), after resetting the configuration and loading a file whose only
line is `k=v`, a successful stereo call of the wrapper returns the angle named
by `k` equal to the delegated angle multiplied by `v` and each of the other
seven angles equal to the delegated angle.  Multiplication by `1.0f` is taken
to return its other operand. -/
theorem single_key_file_scales_one_angle {F : Type} [Mul F] [One F] (H : OpenXRHeader)
    (stof : String → Option F) (fs : FileSystem) (next : PFN_xrLocateViews F)
    (st : LayerState F) (configName : String) (k : Key) (vtext : String) (v : F)
    (session : XrSession) (viewLocateInfo : XrViewLocateInfo) (viewState : XrViewState)
    (viewCapacityInput viewCountOutput : Nat) (views : List (XrView F)) (o0 o1 : XrView F)
    (hmul : ∀ a : F, a * 1 = a)
    (hname : configName ≠ "")
    (hfile : fs st.dllHome (configName ++ ".cfg") = some [k.name ++ "=" ++ vtext])
    (hparse : stof vtext = some v)
    (hres : (next session viewLocateInfo viewState viewCapacityInput viewCountOutput
      views).result = H.XR_SUCCESS)
    (hkind : viewLocateInfo.viewConfigurationType =
      H.XR_VIEW_CONFIGURATION_TYPE_PRIMARY_STEREO)
    (h0 : (next session viewLocateInfo viewState viewCapacityInput viewCountOutput
      views).views[0]? = some o0)
    (h1 : (next session viewLocateInfo viewState viewCapacityInput viewCountOutput
      views).views[1]? = some o1) :
    ∃ out w0 w1,
      FOVModifier_xrLocateViews H next
        (LoadConfiguration stof fs { st with config := st.config.Reset } configName).2
        session viewLocateInfo viewState viewCapacityInput viewCountOutput views =
        Except.ok out ∧
      out.views[0]? = some w0 ∧ out.views[1]? = some w1 ∧
      ∀ k2 : Key, k2.angle (k2.eye w0 w1).fov =
        if k2 = k then k2.angle (k2.eye o0 o1).fov * v else k2.angle (k2.eye o0 o1).fov := by
  obtain ⟨out, hout, hw0, hw1⟩ := locateViews_stereo_ok H next
    (LoadConfiguration stof fs { st with config := st.config.Reset } configName).2
    session viewLocateInfo viewState viewCapacityInput viewCountOutput views o0 o1 hres hkind
    h0 h1
  refine ⟨out, _, _, hout, hw0, hw1, ?_⟩
  intro k2
  rw [scaled_angle]
  have hfactor :
      (LoadConfiguration stof fs { st with config := st.config.Reset }
        configName).2.config.factor k2 = if k2 = k then v else 1 := by
    have hload :
        (LoadConfiguration stof fs { st with config := st.config.Reset }
          configName).2.config.factor k2 =
        ([k.name ++ "=" ++ vtext].foldl (parseLine stof) st.config.Reset).factor k2 := by
      unfold LoadConfiguration
      simp only [if_neg hname, hfile]
      cases k2 <;> rfl
    rw [hload, foldl_parseLine_factor]
    unfold lastAssigned
    simp only [List.filterMap_cons, List.filterMap_nil, assignment_key_line stof k vtext v hparse]
    by_cases hk : k2 = k
    · subst hk
      simp
    · have hk2 : ¬k = k2 := fun h => hk h.symm
      simp only [if_neg hk2, if_neg hk, List.getLast?_nil, Option.getD_none]
      cases k2 <;> rfl
  rw [hfactor]
  by_cases hk : k2 = k
  · simp only [if_pos hk]
  · simp only [if_neg hk, hmul]

/-- Witness for C18: the engine file `left.up=0.8` and a runtime that fills two
views; view 0 has its up angle scaled by 4/5. -/
theorem single_key_file_scales_one_angle_witness :
    ∃ out w0 w1,
      FOVModifier_xrLocateViews openxrHeader sampleRuntime
        (LoadConfiguration sampleStof sampleFiles
          { sampleState with config := sampleState.config.Reset } "UnrealEngine").2
        1 (sampleQuery 2) sampleViewState 2 0 [sampleView 0 0 0 0, sampleView 0 0 0 0] =
        Except.ok out ∧
      out.views[0]? = some w0 ∧ out.views[1]? = some w1 ∧
      ∀ k2 : Key, k2.angle (k2.eye w0 w1).fov =
        if k2 = Key.leftUp then
          k2.angle (k2.eye (sampleView (-1) 1 (4 / 5) (-4 / 5))
            (sampleView (-1) 1 (4 / 5) (-4 / 5))).fov * (4 / 5)
        else
          k2.angle (k2.eye (sampleView (-1) 1 (4 / 5) (-4 / 5))
            (sampleView (-1) 1 (4 / 5) (-4 / 5))).fov :=
  single_key_file_scales_one_angle openxrHeader sampleStof sampleFiles sampleRuntime
    sampleState "UnrealEngine" Key.leftUp "0.8" (4 / 5) 1 (sampleQuery 2) sampleViewState 2 0
    [sampleView 0 0 0 0, sampleView 0 0 0 0] (sampleView (-1) 1 (4 / 5) (-4 / 5))
    (sampleView (-1) 1 (4 / 5) (-4 / 5)) mul_one (by decide) rfl
    (by with_unfolding_all decide) rfl rfl rfl rfl

/-- The key a key text names is that key. -/
theorem keyOfName_name (k : Key) : keyOfName k.name = some k := by
  cases k <;> decide

/-- White space before the number does not change the subject sequence. -/
theorem subjectSequence_skips_space (ws cs : List Char)
    (hws : ∀ c ∈ ws, isspace c = true) :
    subjectSequence (ws ++ cs) = subjectSequence cs := by
  have hdrop : (ws ++ cs).dropWhile isspace = cs.dropWhile isspace := by
    induction ws with
    | nil => rfl
    | cons c rest ih =>
      have hc : isspace c = true := hws c (List.mem_cons_self c rest)
      rw [List.cons_append, List.dropWhile_cons, if_pos hc]
      exact ih fun d hd => hws d (List.mem_cons_of_mem c hd)
  unfold subjectSequence
  rw [hdrop]

/-- C19, as stated, fails: the line `left.up= 0.8abc` splits at its first `=`
into the key `left.up` and the right-hand substring ` 0.8abc`, which has
leading white space and trailing characters that are not part of a number, yet
the line is not skipped: `std::stof` converts the `0.8` inside it and the field
is overwritten. -/
theorem parseLine_accepts_padded_number :
    find "left.up= 0.8abc" '=' = some 7 ∧
    substr "left.up= 0.8abc" 0 7 = Key.leftUp.name ∧
    substrFrom "left.up= 0.8abc" (7 + 1) = " 0.8abc" ∧
    (parseLine sampleStof defaultConfig "left.up= 0.8abc").leftAngleUp = 4 / 5 ∧
    parseLine sampleStof defaultConfig "left.up= 0.8abc" ≠ defaultConfig := by
  with_unfolding_all decide

/-- C19, amended: for a line split at its first `=` whose left-hand substring
is a recognized key, the line overwrites the field of that key, and nothing
else, exactly when `std::stof` converts the right-hand substring: white space
at its start is skipped, the subject sequence that follows (the longest text of
the form of a number) is converted and what comes after it is ignored, and the
stored value is the `float` of that subject sequence.  The line is skipped when
the right-hand substring has no subject sequence, as when it is empty, or when
the conversion reports a range error. -/
theorem parseLine_stores_stof_value {F : Type} (convert : String → Option F)
    (config : Config F) (line : String) (offset : Nat) (k : Key)
    (hfind : find line '=' = some offset) (hkey : substr line 0 offset = k.name) :
    (∀ lexeme v, subjectSequence (substrFrom line (offset + 1)).data = some lexeme →
      convert (String.mk lexeme) = some v →
      (parseLine (stof convert) config line).loaded = config.loaded ∧
      ∀ k2 : Key, (parseLine (stof convert) config line).factor k2 =
        if k2 = k then v else config.factor k2) ∧
    (subjectSequence (substrFrom line (offset + 1)).data = none →
      parseLine (stof convert) config line = config) ∧
    (∀ lexeme, subjectSequence (substrFrom line (offset + 1)).data = some lexeme →
      convert (String.mk lexeme) = none →
      parseLine (stof convert) config line = config) ∧
    (∀ ws cs : List Char, (∀ c ∈ ws, isspace c = true) →
      subjectSequence (ws ++ cs) = subjectSequence cs) ∧
    subjectSequence [] = none := by
  refine ⟨?_, ?_, ?_, subjectSequence_skips_space, rfl⟩
  · intro lexeme v hlex hconv
    have hstof : stof convert (substrFrom line (offset + 1)) = some v := by
      simp only [stof, hlex, hconv]
    refine ⟨parseLine_loaded _ _ _, fun k2 => ?_⟩
    rw [parseLine_factor]
    simp only [assignment, hfind, hkey, keyOfName_name, hstof]
    by_cases hk : k2 = k
    · subst hk
      simp
    · have hk2 : ¬k = k2 := fun h => hk h.symm
      simp only [if_neg hk2, if_neg hk]
  · intro hlex
    have hstof : stof convert (substrFrom line (offset + 1)) = none := by
      simp only [stof, hlex]
    simp only [parseLine, hfind, hstof]
  · intro lexeme hlex hconv
    have hstof : stof convert (substrFrom line (offset + 1)) = none := by
      simp only [stof, hlex, hconv]
    simp only [parseLine, hfind, hstof]

/-- Witness for C19 amended: the line `left.up= 0.8abc` stores 4/5 in the
field of `left.up`. -/
theorem parseLine_stores_stof_value_witness :
    find "left.up= 0.8abc" '=' = some 7 ∧
    substr "left.up= 0.8abc" 0 7 = Key.leftUp.name ∧
    (parseLine (stof exactValue) defaultConfig "left.up= 0.8abc").factor Key.leftUp =
      (if Key.leftUp = Key.leftUp then (4 / 5 : ℚ) else defaultConfig.factor Key.leftUp) :=
  ⟨by decide, by decide,
    ((parseLine_stores_stof_value exactValue defaultConfig "left.up= 0.8abc" 7 Key.leftUp
      (by decide) (by decide)).1 ['0', '.', '8'] (4 / 5) (by decide)
      (by with_unfolding_all decide)).2 Key.leftUp⟩

/-! ## The interception record over sequences of calls -/

/-- The negotiation does not assign `nextXrLocateViews`. -/
theorem negotiate_nextXrLocateViews {F : Type} (H : OpenXRHeader)
    (moduleDir : Option String) (st : LayerState F) (loaderInfo : Option XrNegotiateLoaderInfo)
    (apiLayerName : Option String) (apiLayerRequest : Option XrNegotiateApiLayerRequest) :
    (FOVModifier_xrNegotiateLoaderApiLayerInterface H moduleDir st loaderInfo apiLayerName
      apiLayerRequest).2.2.nextXrLocateViews = st.nextXrLocateViews := by
  have hhome : (locateDllHome moduleDir st).nextXrLocateViews = st.nextXrLocateViews := by
    unfold locateDllHome
    split_ifs
    · cases moduleDir <;> rfl
    · rfl
  unfold FOVModifier_xrNegotiateLoaderApiLayerInterface
  simp only
  split_ifs
  · exact hhome
  · match loaderInfo, apiLayerRequest with
    | some li, some rq =>
      simp only
      split_ifs <;> exact hhome
    | none, _ => exact hhome
    | some _, none => exact hhome

/-- Loading a configuration does not assign `nextXrLocateViews`. -/
theorem loadConfiguration_nextXrLocateViews {F : Type} (stof : String → Option F)
    (fs : FileSystem) (st : LayerState F) (configName : String) :
    (LoadConfiguration stof fs st configName).2.nextXrLocateViews = st.nextXrLocateViews := by
  rw [loadConfiguration_config]
  cases configFile fs st.dllHome configName <;> rfl

/-- The creation does not assign `nextXrLocateViews`. -/
theorem createInstance_nextXrLocateViews {F W : Type} [One F] (H : OpenXRHeader)
    (stof : String → Option F) (fs : FileSystem) (nextCreate : PFN_xrCreateApiLayerInstance W)
    (st : LayerState F) (instanceCreateInfo : XrInstanceCreateInfo)
    (apiLayerInfo : Option XrApiLayerCreateInfo) (instance_ : XrInstance) (w : W) :
    (FOVModifier_xrCreateApiLayerInstance H stof fs nextCreate st instanceCreateInfo
      apiLayerInfo instance_ w).2.2.1.nextXrLocateViews = st.nextXrLocateViews := by
  unfold FOVModifier_xrCreateApiLayerInstance
  match apiLayerInfo with
  | none => rfl
  | some info =>
    simp only
    cases info.nextInfo with
    | none => split_ifs <;> rfl
    | some nextInfo =>
      simp only
      split_ifs <;> simp only [loadConfiguration_nextXrLocateViews]

/-- One call keeps the two properties of the interception record. -/
theorem step_keeps_record {F W : Type} [One F] (H : OpenXRHeader)
    (stof : String → Option F) (o : Observed F W) (c : Call F W)
    (hne : o.st.nextXrLocateViews ≠ FnPtr.addr_FOVModifier_xrLocateViews)
    (hrec : o.wrapperHandedOut = true → o.lastIntercepted = some o.st.nextXrLocateViews)
    (hc : c.resolverAvoidsWrapper) :
    (step H stof o c).st.nextXrLocateViews ≠ FnPtr.addr_FOVModifier_xrLocateViews ∧
    ((step H stof o c).wrapperHandedOut = true →
      (step H stof o c).lastIntercepted = some (step H stof o c).st.nextXrLocateViews) := by
  cases c with
  | negotiate moduleDir loaderInfo apiLayerName apiLayerRequest =>
    simp only [step, negotiate_nextXrLocateViews]
    exact ⟨hne, hrec⟩
  | createInstance fs nextCreate instanceCreateInfo apiLayerInfo instance_ =>
    simp only [step, createInstance_nextXrLocateViews]
    exact ⟨hne, hrec⟩
  | getInstanceProcAddr next instance_ name function =>
    simp only [Call.resolverAvoidsWrapper] at hc
    simp only [step, FOVModifier_xrGetInstanceProcAddr]
    by_cases h1 : o.st.config.loaded = true ∧ (next instance_ name function).1 = H.XR_SUCCESS
    · by_cases h2 : name = "xrLocateViews"
      · have h4 : name = "xrLocateViews" ∧ o.st.config.loaded = true ∧
            (next instance_ name function).1 = H.XR_SUCCESS := ⟨h2, h1⟩
        simp only [if_pos h1, if_pos h2, if_pos h4]
        exact ⟨hc, fun _ => trivial⟩
      · have h4 : ¬(name = "xrLocateViews" ∧ o.st.config.loaded = true ∧
            (next instance_ name function).1 = H.XR_SUCCESS) := fun h => h2 h.1
        simp only [if_pos h1, if_neg h2, if_neg h4, decide_eq_false hc, Bool.or_false]
        exact ⟨hne, hrec⟩
    · have h3 : ¬(name = "xrLocateViews" ∧ o.st.config.loaded = true ∧
          (next instance_ name function).1 = H.XR_SUCCESS) := fun h => h1 h.2
      simp only [if_neg h1, if_neg h3, decide_eq_false hc, Bool.or_false]
      exact ⟨hne, hrec⟩
  | locateViews next session viewLocateInfo viewState viewCapacityInput viewCountOutput views =>
    exact ⟨hne, hrec⟩

/-- C20: start from globals in which no original is recorded and the wrapper has
not been handed out, and make any sequence of negotiation, creation, resolver
and wrapper calls in which no next resolver returns the address of this
layer's wrapper.  Then the recorded original is not the wrapper itself, and
once the resolver has handed out the wrapper the record holds the reference
the next resolver returned on the most recent intercepted resolution of
`xrLocateViews`. -/
theorem interception_record_invariant {F W : Type} [One F] (H : OpenXRHeader)
    (stof : String → Option F) (o : Observed F W) (calls : List (Call F W))
    (hinit : o.st.nextXrLocateViews = FnPtr.null)
    (hfresh : o.wrapperHandedOut = false)
    (hproviso : ∀ c ∈ calls, c.resolverAvoidsWrapper) :
    (run H stof o calls).st.nextXrLocateViews ≠ FnPtr.addr_FOVModifier_xrLocateViews ∧
    ((run H stof o calls).wrapperHandedOut = true →
      (run H stof o calls).lastIntercepted =
        some (run H stof o calls).st.nextXrLocateViews) := by
  have hkeep : ∀ (cs : List (Call F W)) (o1 : Observed F W),
      (∀ c ∈ cs, c.resolverAvoidsWrapper) →
      o1.st.nextXrLocateViews ≠ FnPtr.addr_FOVModifier_xrLocateViews →
      (o1.wrapperHandedOut = true → o1.lastIntercepted = some o1.st.nextXrLocateViews) →
      (run H stof o1 cs).st.nextXrLocateViews ≠ FnPtr.addr_FOVModifier_xrLocateViews ∧
      ((run H stof o1 cs).wrapperHandedOut = true →
        (run H stof o1 cs).lastIntercepted = some (run H stof o1 cs).st.nextXrLocateViews) := by
    intro cs
    induction cs with
    | nil => exact fun o1 _ hne hrec => ⟨hne, hrec⟩
    | cons c rest ih =>
      intro o1 hcs hne hrec
      have hstep := step_keeps_record H stof o1 c hne hrec (hcs c (List.mem_cons_self c rest))
      exact ih (step H stof o1 c) (fun d hd => hcs d (List.mem_cons_of_mem c hd)) hstep.1
        hstep.2
  refine hkeep calls o hproviso ?_ ?_
  · rw [hinit]
    exact fun h => FnPtr.noConfusion h
  · intro h
    rw [hfresh] at h
    cases h

/-- Witness for C20: the sample session, in which the watched name is resolved
twice; afterwards the record holds the runtime's `xrLocateViews`. -/
theorem interception_record_invariant_witness :
    (∀ c ∈ sampleCalls, c.resolverAvoidsWrapper) ∧
    (run openxrHeader sampleStof initialObserved sampleCalls).wrapperHandedOut = true ∧
    (run openxrHeader sampleStof initialObserved sampleCalls).st.nextXrLocateViews ≠
      FnPtr.addr_FOVModifier_xrLocateViews ∧
    (run openxrHeader sampleStof initialObserved sampleCalls).lastIntercepted =
      some (run openxrHeader sampleStof initialObserved sampleCalls).st.nextXrLocateViews :=
  have hproviso : ∀ c ∈ sampleCalls, c.resolverAvoidsWrapper := by
    intro c hc
    simp only [sampleCalls, List.mem_cons, List.mem_singleton, List.not_mem_nil,
      or_false] at hc
    rcases hc with h | h | h | h | h | h <;> subst h <;>
      simp [Call.resolverAvoidsWrapper, sampleResolver]
  have hout : (run openxrHeader sampleStof initialObserved sampleCalls).wrapperHandedOut =
      true := by
    with_unfolding_all decide
  ⟨hproviso, hout,
    (interception_record_invariant openxrHeader sampleStof initialObserved sampleCalls rfl rfl
      hproviso).1,
    (interception_record_invariant openxrHeader sampleStof initialObserved sampleCalls rfl rfl
      hproviso).2 hout⟩

end FovModifier
